import Mathlib

/-!
Verification development for the systems-trader repository.

Shallow embedding of the market-structure analyzer
(`trading_engine/patterns/swings.py`, `range_detector.py`,
`structure_breaks.py`), the condition algebra
(`trading_engine/conditions/base.py`), the strategy loader
(`trading_engine/engine/system_parser.py`) and the backtest driver
(`trading-engine/engine/backtest.py`).

Prices and balances are modelled as rationals (the source uses IEEE
doubles; every property settled here is an order/field-arithmetic fact
that is exact at the modelled level).  Pandas timestamps are modelled
as integers.  A DataFrame is modelled as a list of bars together with
a flag recording whether the optional timestamp column is present.
-/

/-- One OHLCV bar.  `ts` models the row of the optional
timestamp/datetime column (meaningful only when the table's `hasTs`
flag is set); `op` is the open price (`open` is a Lean keyword). -/
structure Candle where
  ts : Int
  op : ℚ
  high : ℚ
  low : ℚ
  close : ℚ
  volume : ℚ
deriving DecidableEq, Repr

/-- A candle table: the ordered bars plus whether a
timestamp/datetime column is present. -/
structure Candles where
  bars : List Candle
  hasTs : Bool
deriving DecidableEq, Repr

/-- Default bar used as the (never reached) `getD` fallback for
in-bounds `iloc` reads. -/
def dCandle : Candle := ⟨0, 0, 0, 0, 0, 0⟩

/-- `SwingType` enum (swings.py). -/
inductive SwingType where
  | SWING_HIGH
  | SWING_LOW
deriving DecidableEq, Repr

/-- `StructureType` enum (swings.py): HH / HL / LH / LL. -/
inductive StructureType where
  | HIGHER_HIGH
  | HIGHER_LOW
  | LOWER_HIGH
  | LOWER_LOW
deriving DecidableEq, Repr

/-- `SwingPoint` dataclass (swings.py).  `structure_` renders the
`structure` field (a Lean keyword). -/
structure SwingPoint where
  index : Nat
  price : ℚ
  swing_type : SwingType
  confirmed_at_index : Nat
  timestamp : Option Int
  confirmed_at_timestamp : Option Int
  structure_ : Option StructureType
deriving DecidableEq, Repr

/-- `SwingPoint.is_high`. -/
def SwingPoint.is_high (s : SwingPoint) : Bool :=
  s.swing_type == SwingType.SWING_HIGH

/-- `SwingPoint.is_low`. -/
def SwingPoint.is_low (s : SwingPoint) : Bool :=
  s.swing_type == SwingType.SWING_LOW

/-- Default swing point used as `getD` fallback for in-bounds reads. -/
def dSwing : SwingPoint := ⟨0, 0, SwingType.SWING_HIGH, 0, none, none, none⟩

/-- One of the `current_swing_high` / `current_swing_low` /
`highest_since_low` / `lowest_since_high` cursor dicts of
`SwingDetector.detect_swings`.  Besides the source dict's index and
price we carry the timestamp of the bar at that index, which the
source reads back with `iloc` when it emits a swing. -/
structure Cursor where
  index : Nat
  price : ℚ
  ts : Int
deriving DecidableEq, Repr

/-- Loop state of `SwingDetector.detect_swings` (swings.py lines
107-191): the four cursors, the emitted swings, and the running bar
index `i`. -/
structure SwingState where
  current_swing_high : Cursor
  current_swing_low : Cursor
  highest_since_low : Cursor
  lowest_since_high : Cursor
  swings : List SwingPoint
  i : Nat
deriving DecidableEq, Repr

/-- State before the loop of `detect_swings`: all cursors on bar 0
(high side at `high[0]`, low side at `low[0]`), next bar index 1. -/
def initSwingState (b0 : Candle) : SwingState :=
  { current_swing_high := ⟨0, b0.high, b0.ts⟩
    current_swing_low := ⟨0, b0.low, b0.ts⟩
    highest_since_low := ⟨0, b0.high, b0.ts⟩
    lowest_since_high := ⟨0, b0.low, b0.ts⟩
    swings := []
    i := 1 }

/-- One iteration of the bar loop of `SwingDetector.detect_swings`
(swings.py lines 120-191), processing bar `st.i`. -/
def stepSwing (use_close hasTs : Bool) (st : SwingState) (bar : Candle) : SwingState :=
  let i := st.i
  let break_price_up := if use_close then bar.close else bar.high
  let break_price_down := if use_close then bar.close else bar.low
  let highest_since_low :=
    if bar.high > st.highest_since_low.price then Cursor.mk i bar.high bar.ts
    else st.highest_since_low
  let lowest_since_high :=
    if bar.low < st.lowest_since_high.price then Cursor.mk i bar.low bar.ts
    else st.lowest_since_high
  if break_price_up > st.current_swing_high.price then
    -- break above the swing high confirms a swing LOW
    let st1 :=
      if lowest_since_high.index < i then
        let swing_low : SwingPoint :=
          { index := lowest_since_high.index
            price := lowest_since_high.price
            swing_type := SwingType.SWING_LOW
            confirmed_at_index := i
            timestamp := if hasTs then some lowest_since_high.ts else none
            confirmed_at_timestamp := if hasTs then some bar.ts else none
            structure_ :=
              match (st.swings.filter (·.is_low)).getLast? with
              | none => none
              | some prev =>
                  some (if lowest_since_high.price > prev.price then
                          StructureType.HIGHER_LOW
                        else StructureType.LOWER_LOW) }
        { st with
            swings := st.swings ++ [swing_low]
            current_swing_low := lowest_since_high }
      else st
    { st1 with
        current_swing_high := ⟨i, bar.high, bar.ts⟩
        highest_since_low := ⟨i, bar.high, bar.ts⟩
        lowest_since_high := ⟨i, bar.low, bar.ts⟩
        i := i + 1 }
  else if break_price_down < st.current_swing_low.price then
    -- break below the swing low confirms a swing HIGH
    let st1 :=
      if highest_since_low.index < i then
        let swing_high : SwingPoint :=
          { index := highest_since_low.index
            price := highest_since_low.price
            swing_type := SwingType.SWING_HIGH
            confirmed_at_index := i
            timestamp := if hasTs then some highest_since_low.ts else none
            confirmed_at_timestamp := if hasTs then some bar.ts else none
            structure_ :=
              match (st.swings.filter (·.is_high)).getLast? with
              | none => none
              | some prev =>
                  some (if highest_since_low.price > prev.price then
                          StructureType.HIGHER_HIGH
                        else StructureType.LOWER_HIGH) }
        { st with
            swings := st.swings ++ [swing_high]
            current_swing_high := highest_since_low }
      else st
    { st1 with
        current_swing_low := ⟨i, bar.low, bar.ts⟩
        lowest_since_high := ⟨i, bar.low, bar.ts⟩
        highest_since_low := ⟨i, bar.high, bar.ts⟩
        i := i + 1 }
  else
    { st with
        highest_since_low := highest_since_low
        lowest_since_high := lowest_since_high
        i := i + 1 }

/-- The final `swings.sort(key=lambda x: x.index)` of
`detect_swings` (a stable sort by index). -/
def sortByIndex (l : List SwingPoint) : List SwingPoint :=
  l.mergeSort (fun a b => a.index ≤ b.index)

/-- `SwingDetector.detect_swings` (swings.py lines 87-196): fewer
than 3 bars yields no swings; otherwise the cursors are initialized
from bar 0 and the loop runs over bars 1, 2, …. -/
def detect_swings (use_close : Bool) (c : Candles) : List SwingPoint :=
  if c.bars.length < 3 then []
  else
    match c.bars with
    | [] => []
    | b0 :: rest =>
        sortByIndex ((rest.foldl (stepSwing use_close c.hasTs) (initSwingState b0)).swings)

/-- The `key_levels` dict built by `StructureAnalyzer.analyze`. -/
structure KeyLevels where
  last_swing_high : Option ℚ
  last_swing_low : Option ℚ
  prev_swing_high : Option ℚ
  prev_swing_low : Option ℚ
deriving DecidableEq, Repr

/-- The dict returned by `StructureAnalyzer.analyze`.  The early
(fewer-than-4-swings) return carries no counts and an empty
`key_levels` dict; that absence is modelled as zero counts and
all-`none` levels. -/
structure AnalyzeResult where
  trend : String
  swings : List SwingPoint
  hh_count : Nat
  hl_count : Nat
  lh_count : Nat
  ll_count : Nat
  key_levels : KeyLevels
deriving DecidableEq, Repr

/-- The `swings[-6:] if len(swings) >= 6 else swings` window of
`StructureAnalyzer.analyze`. -/
def recentOf (swings : List SwingPoint) : List SwingPoint :=
  if swings.length ≥ 6 then swings.drop (swings.length - 6) else swings

/-- `StructureAnalyzer.analyze` (swings.py lines 259-312). -/
def analyze (use_close : Bool) (c : Candles) : AnalyzeResult :=
  let swings := detect_swings use_close c
  if swings.length < 4 then
    { trend := "unknown"
      swings := swings
      hh_count := 0, hl_count := 0, lh_count := 0, ll_count := 0
      key_levels := ⟨none, none, none, none⟩ }
  else
    let recent := recentOf swings
    let hh_count := recent.countP (fun s => s.structure_ == some StructureType.HIGHER_HIGH)
    let hl_count := recent.countP (fun s => s.structure_ == some StructureType.HIGHER_LOW)
    let lh_count := recent.countP (fun s => s.structure_ == some StructureType.LOWER_HIGH)
    let ll_count := recent.countP (fun s => s.structure_ == some StructureType.LOWER_LOW)
    let trend :=
      if hh_count ≥ 1 ∧ hl_count ≥ 1 then "uptrend"
      else if lh_count ≥ 1 ∧ ll_count ≥ 1 then "downtrend"
      else "ranging"
    let highs := swings.filter (·.is_high)
    let lows := swings.filter (·.is_low)
    { trend := trend
      swings := swings
      hh_count := hh_count, hl_count := hl_count
      lh_count := lh_count, ll_count := ll_count
      key_levels :=
        { last_swing_high := (highs.getLast?).map (·.price)
          last_swing_low := (lows.getLast?).map (·.price)
          prev_swing_high :=
            if highs.length > 1 then some ((highs.getD (highs.length - 2) dSwing).price) else none
          prev_swing_low :=
            if lows.length > 1 then some ((lows.getD (lows.length - 2) dSwing).price) else none } }

/-- `RangeStatus` enum (range_detector.py). -/
inductive RangeStatus where
  | FORMING
  | CONFIRMED
  | BROKEN_UP
  | BROKEN_DOWN
deriving DecidableEq, Repr

/-- `FibLevels` dataclass (range_detector.py lines 28-70). -/
structure FibLevels where
  range_low : ℚ
  range_high : ℚ
deriving DecidableEq, Repr

/-- `FibLevels.fib_0`. -/
def FibLevels.fib_0 (f : FibLevels) : ℚ := f.range_low

/-- `FibLevels.fib_25`. -/
def FibLevels.fib_25 (f : FibLevels) : ℚ :=
  f.range_low + (f.range_high - f.range_low) * (0.25 : ℚ)

/-- `FibLevels.fib_50`. -/
def FibLevels.fib_50 (f : FibLevels) : ℚ :=
  f.range_low + (f.range_high - f.range_low) * (0.50 : ℚ)

/-- `FibLevels.fib_75`. -/
def FibLevels.fib_75 (f : FibLevels) : ℚ :=
  f.range_low + (f.range_high - f.range_low) * (0.75 : ℚ)

/-- `FibLevels.fib_100`. -/
def FibLevels.fib_100 (f : FibLevels) : ℚ := f.range_high

/-- `FibLevels.get_level`. -/
def FibLevels.get_level (f : FibLevels) (pct : ℚ) : ℚ :=
  f.range_low + (f.range_high - f.range_low) * (pct / 100)

/-- `Range` dataclass (range_detector.py lines 73-145).  `_create_range`
always fills `end_index`, so it is carried as a plain `Nat`. -/
structure Range where
  high : ℚ
  low : ℚ
  start_index : Nat
  end_index : Nat
  high_touches : Nat
  low_touches : Nat
  status : RangeStatus
  high_swing : Option SwingPoint
  low_swing : Option SwingPoint
deriving DecidableEq, Repr

/-- `Range.fib`. -/
def Range.fib (r : Range) : FibLevels := ⟨r.low, r.high⟩

/-- `Range.height`. -/
def Range.height (r : Range) : ℚ := r.high - r.low

/-- `Range.midpoint`. -/
def Range.midpoint (r : Range) : ℚ := (r.high + r.low) / 2

/-- `Range.total_touches`. -/
def Range.total_touches (r : Range) : Nat := r.high_touches + r.low_touches

/-- `Range.is_valid`. -/
def Range.is_valid (r : Range) (min_touches : Nat) : Bool :=
  r.total_touches ≥ min_touches

/-- `Range.is_active`. -/
def Range.is_active (r : Range) : Bool :=
  r.status == RangeStatus.FORMING || r.status == RangeStatus.CONFIRMED

/-- `Range.at_75_level`. -/
def Range.at_75_level (r : Range) (price : ℚ) (tolerance_pct : ℚ) : Bool :=
  |price - r.fib.fib_75| ≤ r.height * (tolerance_pct / 100)

/-- `Range.at_25_level`. -/
def Range.at_25_level (r : Range) (price : ℚ) (tolerance_pct : ℚ) : Bool :=
  |price - r.fib.fib_25| ≤ r.height * (tolerance_pct / 100)

/-- Constructor parameters of `RangeDetector`. -/
structure RangeParams where
  touch_tolerance_pct : ℚ
  min_touches : Nat
  min_range_bars : Nat
  max_range_bars : Nat
deriving DecidableEq, Repr

/-- The forward touch/breakout scan of `RangeDetector._create_range`
(range_detector.py lines 260-302): starting at bar `i` with `fuel`
bars left in the window and the running touch counters, return the
final counters and, when a boundary is breached by more than the
tolerance, the breaking bar and the broken status. -/
def touchScan (c : Candles) (range_high range_low tolerance : ℚ) :
    Nat → Nat → Nat → Nat → Nat × Nat × Option (Nat × RangeStatus)
  | 0, _, hi, lo => (hi, lo, none)
  | fuel + 1, i, hi, lo =>
      let bar := c.bars.getD i dCandle
      let hi' := if bar.high ≥ range_high - tolerance then hi + 1 else hi
      let lo' := if bar.low ≤ range_low + tolerance then lo + 1 else lo
      if bar.high > range_high + tolerance then (hi', lo', some (i, RangeStatus.BROKEN_UP))
      else if bar.low < range_low - tolerance then (hi', lo', some (i, RangeStatus.BROKEN_DOWN))
      else touchScan c range_high range_low tolerance fuel (i + 1) hi' lo'

/-- `RangeDetector._create_range` (range_detector.py lines 235-317). -/
def _create_range (P : RangeParams) (c : Candles) (high_swing low_swing : SwingPoint) :
    Option Range :=
  let start_idx := min high_swing.index low_swing.index
  let end_idx := max high_swing.index low_swing.index
  if end_idx - start_idx < P.min_range_bars then none
  else
    let range_high := high_swing.price
    let range_low := low_swing.price
    let range_height := range_high - range_low
    let tolerance := range_height * (P.touch_tolerance_pct / 100)
    let fuel := min c.bars.length (end_idx + P.max_range_bars) - end_idx
    match touchScan c range_high range_low tolerance fuel end_idx 0 0 with
    | (hi, lo, some (i, stat)) =>
        some { high := range_high, low := range_low
               start_index := start_idx, end_index := i
               high_touches := hi, low_touches := lo
               status := stat
               high_swing := some high_swing, low_swing := some low_swing }
    | (hi, lo, none) =>
        some { high := range_high, low := range_low
               start_index := start_idx, end_index := c.bars.length - 1
               high_touches := hi, low_touches := lo
               status := if hi + lo ≥ P.min_touches then RangeStatus.CONFIRMED
                         else RangeStatus.FORMING
               high_swing := some high_swing, low_swing := some low_swing }

/-- `RangeDetector.detect_ranges` (range_detector.py lines 184-215):
every swing high except a trailing last swing is paired with the
earliest later swing low; candidates surviving `_create_range` are
kept only when `is_valid(min_touches)` holds. -/
def detect_ranges (P : RangeParams) (use_close : Bool) (c : Candles) : List Range :=
  let swings := detect_swings use_close c
  if swings.length < 2 then []
  else
    let low_swings := swings.filter (·.is_low)
    swings.dropLast.foldl
      (fun acc swing =>
        if swing.is_high then
          match (low_swings.filter (fun s => s.index > swing.index)).head? with
          | some low_swing =>
              match _create_range P c swing low_swing with
              | some range_obj =>
                  if range_obj.is_valid P.min_touches then acc ++ [range_obj] else acc
              | none => acc
          | none => acc
        else acc)
      []

/-- `RangeDetector.detect_current_range` (range_detector.py lines
217-233): the latest detected range whose status is still active. -/
def detect_current_range (P : RangeParams) (use_close : Bool) (c : Candles) : Option Range :=
  let ranges := detect_ranges P use_close c
  let active_ranges := ranges.filter (·.is_active)
  active_ranges.getLast?

/-- `BreakType` enum (structure_breaks.py). -/
inductive BreakType where
  | BOS_BULLISH
  | BOS_BEARISH
  | MSB_BULLISH
  | MSB_BEARISH
deriving DecidableEq, Repr

/-- `StructureBreak` dataclass (structure_breaks.py lines 27-68).  The
detectors never fill the retest fields; they stay `none`. -/
structure StructureBreak where
  break_type : BreakType
  break_index : Nat
  break_price : ℚ
  break_candle_close : ℚ
  swing_broken : SwingPoint
  timestamp : Option Int
  retest_index : Option Nat
  retest_price : Option ℚ
deriving DecidableEq, Repr

/-- The break price of bar `i`: close when `use_close`, else the high
(used when scanning above a swing high). -/
def checkPriceUp (c : Candles) (use_close : Bool) (i : Nat) : ℚ :=
  if use_close then (c.bars.getD i dCandle).close else (c.bars.getD i dCandle).high

/-- The break price of bar `i`: close when `use_close`, else the low
(used when scanning below a swing low). -/
def checkPriceDown (c : Candles) (use_close : Bool) (i : Nat) : ℚ :=
  if use_close then (c.bars.getD i dCandle).close else (c.bars.getD i dCandle).low

/-- `BOSDetector._detect_break_above` (structure_breaks.py lines
139-178): scan forward from `swing.index + confirmation_bars` for the
first bar whose break price exceeds the swing level; at that bar emit
a bullish BOS iff the most recent prior swing is HH or HL, and stop
either way. -/
def _detect_break_above (c : Candles) (confirmation_bars : Nat) (use_close : Bool)
    (swing : SwingPoint) (all_swings : List SwingPoint) : Option StructureBreak :=
  let level := swing.price
  let start := swing.index + confirmation_bars
  match (List.range' start (c.bars.length - start)).find?
      (fun i => level < checkPriceUp c use_close i) with
  | none => none
  | some i =>
      let prior_swings := all_swings.filter (fun s => s.index < i)
      match prior_swings.getLast? with
      | none => none
      | some last_swing =>
          if last_swing.structure_ = some StructureType.HIGHER_HIGH ∨
              last_swing.structure_ = some StructureType.HIGHER_LOW then
            some { break_type := BreakType.BOS_BULLISH
                   break_index := i
                   break_price := level
                   break_candle_close := (c.bars.getD i dCandle).close
                   swing_broken := swing
                   timestamp := if c.hasTs then some (c.bars.getD i dCandle).ts else none
                   retest_index := none, retest_price := none }
          else none

/-- `BOSDetector._detect_break_below` (structure_breaks.py lines
180-212), mirror image of `_detect_break_above`. -/
def _detect_break_below (c : Candles) (confirmation_bars : Nat) (use_close : Bool)
    (swing : SwingPoint) (all_swings : List SwingPoint) : Option StructureBreak :=
  let level := swing.price
  let start := swing.index + confirmation_bars
  match (List.range' start (c.bars.length - start)).find?
      (fun i => checkPriceDown c use_close i < level) with
  | none => none
  | some i =>
      let prior_swings := all_swings.filter (fun s => s.index < i)
      match prior_swings.getLast? with
      | none => none
      | some last_swing =>
          if last_swing.structure_ = some StructureType.LOWER_HIGH ∨
              last_swing.structure_ = some StructureType.LOWER_LOW then
            some { break_type := BreakType.BOS_BEARISH
                   break_index := i
                   break_price := level
                   break_candle_close := (c.bars.getD i dCandle).close
                   swing_broken := swing
                   timestamp := if c.hasTs then some (c.bars.getD i dCandle).ts else none
                   retest_index := none, retest_price := none }
          else none

/-- `BOSDetector.detect_bos` (structure_breaks.py lines 101-132).
`swing_use_close` configures the detector's own `SwingDetector`;
`use_close` configures break detection. -/
def detect_bos (swing_use_close : Bool) (confirmation_bars : Nat) (use_close : Bool)
    (c : Candles) : List StructureBreak :=
  let swings := detect_swings swing_use_close c
  if swings.length < 2 then []
  else
    let highs := swings.filter (·.is_high)
    let lows := swings.filter (·.is_low)
    let breaks :=
      highs.filterMap (fun s => _detect_break_above c confirmation_bars use_close s swings) ++
      lows.filterMap (fun s => _detect_break_below c confirmation_bars use_close s swings)
    breaks.mergeSort (fun a b => a.break_index ≤ b.break_index)

/-- `MSBDetector._detect_bullish_msb` (structure_breaks.py lines
281-320): at the first bar whose break price exceeds the swing level,
emit a bullish MSB iff at least 2 swings in the window
`swing.index - 20 < s.index < i` carry LH or LL structure.  The
window's lower bound is an unclamped Python int, hence the `Int`
comparison. -/
def _detect_bullish_msb (c : Candles) (confirmation_bars : Nat) (use_close : Bool)
    (swing : SwingPoint) (all_swings : List SwingPoint) : Option StructureBreak :=
  let level := swing.price
  let start := swing.index + confirmation_bars
  match (List.range' start (c.bars.length - start)).find?
      (fun i => level < checkPriceUp c use_close i) with
  | none => none
  | some i =>
      let prior_swings := all_swings.filter
        (fun s => s.index < i ∧ (swing.index : Int) - 20 < (s.index : Int))
      let lh_ll_count := prior_swings.countP
        (fun s => s.structure_ == some StructureType.LOWER_HIGH ||
                  s.structure_ == some StructureType.LOWER_LOW)
      if lh_ll_count ≥ 2 then
        some { break_type := BreakType.MSB_BULLISH
               break_index := i
               break_price := level
               break_candle_close := (c.bars.getD i dCandle).close
               swing_broken := swing
               timestamp := if c.hasTs then some (c.bars.getD i dCandle).ts else none
               retest_index := none, retest_price := none }
      else none

/-- `MSBDetector._detect_bearish_msb` (structure_breaks.py lines
322-361), mirror image of `_detect_bullish_msb`. -/
def _detect_bearish_msb (c : Candles) (confirmation_bars : Nat) (use_close : Bool)
    (swing : SwingPoint) (all_swings : List SwingPoint) : Option StructureBreak :=
  let level := swing.price
  let start := swing.index + confirmation_bars
  match (List.range' start (c.bars.length - start)).find?
      (fun i => checkPriceDown c use_close i < level) with
  | none => none
  | some i =>
      let prior_swings := all_swings.filter
        (fun s => s.index < i ∧ (swing.index : Int) - 20 < (s.index : Int))
      let hh_hl_count := prior_swings.countP
        (fun s => s.structure_ == some StructureType.HIGHER_HIGH ||
                  s.structure_ == some StructureType.HIGHER_LOW)
      if hh_hl_count ≥ 2 then
        some { break_type := BreakType.MSB_BEARISH
               break_index := i
               break_price := level
               break_candle_close := (c.bars.getD i dCandle).close
               swing_broken := swing
               timestamp := if c.hasTs then some (c.bars.getD i dCandle).ts else none
               retest_index := none, retest_price := none }
      else none

/-- `MSBDetector.detect_msb` (structure_breaks.py lines 245-274). -/
def detect_msb (swing_use_close : Bool) (confirmation_bars : Nat) (use_close : Bool)
    (c : Candles) : List StructureBreak :=
  let swings := detect_swings swing_use_close c
  if swings.length < 3 then []
  else
    let highs := swings.filter (·.is_high)
    let lows := swings.filter (·.is_low)
    let breaks :=
      highs.filterMap (fun s => _detect_bullish_msb c confirmation_bars use_close s swings) ++
      lows.filterMap (fun s => _detect_bearish_msb c confirmation_bars use_close s swings)
    breaks.mergeSort (fun a b => a.break_index ≤ b.break_index)

/-- `ConditionResult` enum (conditions/base.py). -/
inductive ConditionResult where
  | TRUE
  | FALSE
  | NEUTRAL
deriving DecidableEq, Repr

/-- `EvaluationResult` (conditions/base.py lines 23-54).  The
free-text `details` and the `values` dict are descriptive metadata
and are not modelled; the verdict and the condition name are. -/
structure EvaluationResult where
  result : ConditionResult
  condition_name : String
deriving DecidableEq, Repr

/-- The combinator tree of conditions/base.py.  A `leaf` stands for an
arbitrary concrete condition, carrying its name and the three-valued
verdict its `evaluate` returns on the bar under consideration; `andC`,
`orC`, `notC` are `AndCondition`, `OrCondition`, `NotCondition`. -/
inductive BaseCondition where
  | leaf (name : String) (r : ConditionResult)
  | andC (cond1 cond2 : BaseCondition)
  | orC (cond1 cond2 : BaseCondition)
  | notC (condition : BaseCondition)
deriving DecidableEq, Repr

/-- The `name` attribute: leaves keep theirs; combinators build
"(a AND b)", "(a OR b)", "NOT(a)" as in the source constructors. -/
def condName : BaseCondition → String
  | .leaf n _ => n
  | .andC c1 c2 => "(" ++ condName c1 ++ " AND " ++ condName c2 ++ ")"
  | .orC c1 c2 => "(" ++ condName c1 ++ " OR " ++ condName c2 ++ ")"
  | .notC c => "NOT(" ++ condName c ++ ")"

/-- `evaluate` of `AndCondition` / `OrCondition` / `NotCondition`
(conditions/base.py lines 114-137, 153-175, 185-207), with leaf
evaluation abstracted to the verdict the leaf carries. -/
def condEvaluate : BaseCondition → EvaluationResult
  | .leaf n r => ⟨r, n⟩
  | .andC cond1 cond2 =>
      let result1 := condEvaluate cond1
      let result2 := condEvaluate cond2
      if result1.result = ConditionResult.FALSE ∨ result2.result = ConditionResult.FALSE then
        ⟨ConditionResult.FALSE, condName (.andC cond1 cond2)⟩
      else if result1.result = ConditionResult.TRUE ∧ result2.result = ConditionResult.TRUE then
        ⟨ConditionResult.TRUE, condName (.andC cond1 cond2)⟩
      else
        ⟨ConditionResult.NEUTRAL, condName (.andC cond1 cond2)⟩
  | .orC cond1 cond2 =>
      let result1 := condEvaluate cond1
      let result2 := condEvaluate cond2
      if result1.result = ConditionResult.TRUE ∨ result2.result = ConditionResult.TRUE then
        ⟨ConditionResult.TRUE, condName (.orC cond1 cond2)⟩
      else if result1.result = ConditionResult.FALSE ∧ result2.result = ConditionResult.FALSE then
        ⟨ConditionResult.FALSE, condName (.orC cond1 cond2)⟩
      else
        ⟨ConditionResult.NEUTRAL, condName (.orC cond1 cond2)⟩
  | .notC condition =>
      let result := condEvaluate condition
      if result.result = ConditionResult.TRUE then
        ⟨ConditionResult.FALSE, condName (.notC condition)⟩
      else if result.result = ConditionResult.FALSE then
        ⟨ConditionResult.TRUE, condName (.notC condition)⟩
      else
        ⟨ConditionResult.NEUTRAL, condName (.notC condition)⟩

/-- Three-valued conjunction as the spec states it (§4.6), for the
refinement comparison against `condEvaluate`. -/
def specAnd (a b : ConditionResult) : ConditionResult :=
  if a = ConditionResult.TRUE ∧ b = ConditionResult.TRUE then ConditionResult.TRUE
  else if a = ConditionResult.FALSE ∨ b = ConditionResult.FALSE then ConditionResult.FALSE
  else ConditionResult.NEUTRAL

/-- Three-valued disjunction as the spec states it (§4.6). -/
def specOr (a b : ConditionResult) : ConditionResult :=
  if a = ConditionResult.TRUE ∨ b = ConditionResult.TRUE then ConditionResult.TRUE
  else if a = ConditionResult.FALSE ∧ b = ConditionResult.FALSE then ConditionResult.FALSE
  else ConditionResult.NEUTRAL

/-- Three-valued negation as the spec states it (§4.6). -/
def specNot (a : ConditionResult) : ConditionResult :=
  if a = ConditionResult.TRUE then ConditionResult.FALSE
  else if a = ConditionResult.FALSE then ConditionResult.TRUE
  else ConditionResult.NEUTRAL

/-- `StopLossType` enum (system_parser.py). -/
inductive StopLossType where
  | ATR
  | PERCENT
  | FIXED
  | SWING
  | LEVEL
deriving DecidableEq, Repr

/-- `TakeProfitType` enum (system_parser.py). -/
inductive TakeProfitType where
  | RISK_REWARD
  | ATR
  | PERCENT
  | FIXED
  | LEVEL
deriving DecidableEq, Repr

/-- `StopLossType(value)`: the enum lookup; an unknown string raises
`ValueError` in Python, modelled as `none`. -/
def stopLossTypeOf : String → Option StopLossType
  | "atr" => some StopLossType.ATR
  | "percent" => some StopLossType.PERCENT
  | "fixed" => some StopLossType.FIXED
  | "swing" => some StopLossType.SWING
  | "level" => some StopLossType.LEVEL
  | _ => none

/-- `TakeProfitType(value)`, as `stopLossTypeOf`. -/
def takeProfitTypeOf : String → Option TakeProfitType
  | "risk_reward" => some TakeProfitType.RISK_REWARD
  | "atr" => some TakeProfitType.ATR
  | "percent" => some TakeProfitType.PERCENT
  | "fixed" => some TakeProfitType.FIXED
  | "level" => some TakeProfitType.LEVEL
  | _ => none

/-- The `stop_loss` sub-dict of a strategy document: exactly the keys
`StopLossConfig.from_dict` reads. -/
structure SLDoc where
  type_ : Option String
  multiplier : Option ℚ
  value : Option ℚ
  percent : Option ℚ
  trailing : Option Bool
  trailing_activation : Option ℚ
deriving DecidableEq, Repr

/-- The `take_profit` sub-dict: the keys `TakeProfitConfig.from_dict`
reads.  A `partial_exits` payload is carried opaquely. -/
structure TPDoc where
  type_ : Option String
  ratio : Option ℚ
  value : Option ℚ
  multiplier : Option ℚ
  partial_exits : Option (List (String × ℚ))
deriving DecidableEq, Repr

/-- `StopLossConfig` dataclass (system_parser.py lines 77-92). -/
structure StopLossConfig where
  type_ : StopLossType
  value : ℚ
  trailing : Bool
  trailing_activation : Option ℚ
deriving DecidableEq, Repr

/-- `StopLossConfig.from_dict`: type defaults to "atr"; the value is
`multiplier`, else `value`, else `percent`, else 1.5. -/
def StopLossConfig.from_dict (data : SLDoc) : Option StopLossConfig :=
  match stopLossTypeOf (data.type_.getD "atr") with
  | none => none
  | some ty =>
      some { type_ := ty
             value := data.multiplier.getD (data.value.getD (data.percent.getD (1.5 : ℚ)))
             trailing := data.trailing.getD false
             trailing_activation := data.trailing_activation }

/-- `TakeProfitConfig` dataclass (system_parser.py lines 95-108). -/
structure TakeProfitConfig where
  type_ : TakeProfitType
  value : ℚ
  partial_exits : Option (List (String × ℚ))
deriving DecidableEq, Repr

/-- `TakeProfitConfig.from_dict`: type defaults to "risk_reward"; the
value is `ratio`, else `value`, else `multiplier`, else 3.0. -/
def TakeProfitConfig.from_dict (data : TPDoc) : Option TakeProfitConfig :=
  match takeProfitTypeOf (data.type_.getD "risk_reward") with
  | none => none
  | some ty =>
      some { type_ := ty
             value := data.ratio.getD (data.value.getD (data.multiplier.getD (3.0 : ℚ)))
             partial_exits := data.partial_exits }

/-- A YAML scalar appearing among a condition's parameters. -/
inductive YVal where
  | num (q : ℚ)
  | str (s : String)
  | boolean (b : Bool)
deriving DecidableEq, Repr

/-- One entry of a `conditions:` list: its `type` key (if present) and
the remaining keyword parameters. -/
structure CondData where
  type_ : Option String
  params : List (String × YVal)
deriving DecidableEq, Repr

/-- A condition constructor table: for a registered type string, build
the condition from the keyword parameters, `none` modelling the
`TypeError` a constructor raises on an invalid parameter set.  The
concrete constructors live in the conditions modules; the parser is
generic in them. -/
abbrev CondConstructor := String → List (String × YVal) → Option BaseCondition

/-- The key set of `SystemParser.CONDITION_TYPES` (system_parser.py
lines 173-207). -/
def CONDITION_TYPES_keys : List String :=
  ["bos_occurred", "msb_occurred", "in_range", "at_75_fib", "at_25_fib",
   "false_breakout", "in_uptrend", "in_downtrend", "is_ranging", "retest_occurred",
   "price_above", "price_below", "price_near", "price_crossed_above",
   "price_crossed_below", "price_in_range", "candle_direction", "consecutive_candles",
   "ema_alignment", "price_above_ema", "price_below_ema", "rsi_level", "vwap_slope",
   "price_above_vwap", "price_below_vwap", "volume_spike", "adx_trending",
   "macd_crossover"]

/-- `SystemParser._parse_condition` (system_parser.py lines 304-322):
a missing or falsy type key yields `None`; a type outside the registry
logs a warning and yields `None`; otherwise the constructor runs, a
`TypeError` again yielding `None`. -/
def _parse_condition (construct : CondConstructor) (data : CondData) : Option BaseCondition :=
  match data.type_ with
  | none => none
  | some cond_type =>
      if cond_type = "" then none
      else if cond_type ∈ CONDITION_TYPES_keys then construct cond_type data.params
      else none

/-- `SystemParser._parse_conditions` (system_parser.py lines 293-302). -/
def _parse_conditions (construct : CondConstructor) (conditions_data : List CondData) :
    List BaseCondition :=
  conditions_data.filterMap (_parse_condition construct)

/-- The `entry:` sub-document. -/
structure EntryDoc where
  conditions : Option (List CondData)
deriving DecidableEq, Repr

/-- The `exit:` sub-document. -/
structure ExitDoc where
  stop_loss : Option SLDoc
  take_profit : Option TPDoc
deriving DecidableEq, Repr

/-- A strategy document: the keys `SystemParser.parse` reads. -/
structure SystemDoc where
  name : Option String
  timeframe : Option String
  direction : Option String
  entry : Option EntryDoc
  exit_ : Option ExitDoc
  filters : Option (List CondData)
  risk_percent : Option ℚ
  risk : Option ℚ
  max_positions : Option Nat
  description : Option String
  enabled : Option Bool
deriving DecidableEq, Repr

/-- `TradingSystem` dataclass (system_parser.py lines 111-138). -/
structure TradingSystem where
  name : String
  timeframe : String
  direction : String
  entry_conditions : List BaseCondition
  stop_loss : StopLossConfig
  take_profit : TakeProfitConfig
  filters : List BaseCondition
  risk_percent : ℚ
  max_positions : Nat
  description : String
  enabled : Bool
deriving DecidableEq, Repr

/-- `TradingSystem.check_entry` (system_parser.py lines 140-159): no
entry conditions means no entry; otherwise every entry condition must
be TRUE and, when filters exist, at least one filter must be TRUE. -/
def TradingSystem.check_entry (s : TradingSystem) : Bool :=
  if s.entry_conditions = [] then false
  else if ¬ s.entry_conditions.all
      (fun condition => (condEvaluate condition).result == ConditionResult.TRUE) then false
  else if s.filters ≠ [] ∧ ¬ s.filters.any
      (fun f => (condEvaluate f).result == ConditionResult.TRUE) then false
  else true

/-- The `stop_loss` default dict
`StopLossConfig.from_dict(exit_data.get('stop_loss', ...))` falls back
to (system_parser.py line 266). -/
def defaultSLDoc : SLDoc := ⟨some "atr", some (1.5 : ℚ), none, none, none, none⟩

/-- The `take_profit` default dict of system_parser.py line 267. -/
def defaultTPDoc : TPDoc := ⟨some "risk_reward", some (3.0 : ℚ), none, none, none⟩

/-- `SystemParser.parse` (system_parser.py lines 253-291).  An unknown
stop-loss or take-profit type string raises `ValueError` out of
`parse`; that failure is the `none` result. -/
def SystemParser.parse (construct : CondConstructor) (data : SystemDoc) :
    Option TradingSystem :=
  let entry_data := data.entry.getD ⟨none⟩
  let entry_conditions := _parse_conditions construct (entry_data.conditions.getD [])
  let exit_data := data.exit_.getD ⟨none, none⟩
  match StopLossConfig.from_dict (exit_data.stop_loss.getD defaultSLDoc),
        TakeProfitConfig.from_dict (exit_data.take_profit.getD defaultTPDoc) with
  | some stop_loss, some take_profit =>
      some { name := data.name.getD "Unnamed System"
             timeframe := data.timeframe.getD "15m"
             direction := data.direction.getD "both"
             entry_conditions := entry_conditions
             stop_loss := stop_loss
             take_profit := take_profit
             filters := _parse_conditions construct (data.filters.getD [])
             risk_percent := data.risk_percent.getD (data.risk.getD (1.0 : ℚ))
             max_positions := data.max_positions.getD 1
             description := data.description.getD ""
             enabled := data.enabled.getD true }
  | _, _ => none

/-- `SignalType` enum.  Modelled from the spec: the enum lives in the
missing `engine/signal_generator.py` (§4.8); the backtest driver only
distinguishes LONG from SHORT. -/
inductive SignalType where
  | LONG
  | SHORT
deriving DecidableEq, Repr

/-- Modelled from the spec: the `Signal` record of §4.8, produced by
the missing `engine/signal_generator.py`; only the fields the
backtest driver reads are carried. -/
structure Signal where
  signal_type : SignalType
  stop_loss : ℚ
  take_profit : ℚ
  position_size : ℚ
  risk_amount : ℚ
deriving DecidableEq, Repr

/-- Modelled from the spec: `SignalGenerator.generate_signals`
(missing `engine/signal_generator.py`) is, per §4.8, a pure function
of the candle prefix, the symbol and the account balance; the
backtest driver is parameterized over it. -/
abbrev SigGen := List Candle → String → ℚ → List Signal

/-- `TradeStatus` enum (backtest.py lines 26-32). -/
inductive TradeStatus where
  | OPEN
  | CLOSED_TP
  | CLOSED_SL
  | CLOSED_SIGNAL
  | CLOSED_EOD
deriving DecidableEq, Repr

/-- `BacktestTrade` dataclass (backtest.py lines 35-82).  `entry_time`
and `exit_time` are `datetime` values, modelled as integers. -/
structure BacktestTrade where
  trade_id : Nat
  system_name : String
  signal_type : SignalType
  entry_time : Int
  entry_price : ℚ
  entry_bar : Nat
  exit_time : Option Int
  exit_price : Option ℚ
  exit_bar : Option Nat
  exit_reason : Option TradeStatus
  stop_loss : ℚ
  take_profit : ℚ
  position_size : ℚ
  risk_amount : ℚ
  pnl : ℚ
  pnl_percent : ℚ
  r_multiple : ℚ
deriving DecidableEq, Repr

/-- `BacktestResults` (backtest.py lines 85-109): the fields `run`
fills (the derived metric properties are computed from these). -/
structure BacktestResults where
  system_name : String
  symbol : String
  timeframe : String
  start_date : Int
  end_date : Int
  trades : List BacktestTrade
  initial_balance : ℚ
  final_balance : ℚ
  peak_balance : ℚ
  max_drawdown : ℚ
  max_drawdown_percent : ℚ
deriving DecidableEq, Repr

/-- The constructor arguments of `BacktestEngine` (backtest.py lines
219-236). -/
structure EngineParams where
  initial_balance : ℚ
  commission_pct : ℚ
  slippage_pct : ℚ
deriving DecidableEq, Repr

/-- `BacktestEngine._check_exit` (backtest.py lines 397-427). -/
def _check_exit (trade : BacktestTrade) (high low close : ℚ) :
    Option ℚ × Option TradeStatus :=
  if trade.signal_type = SignalType.LONG then
    if low ≤ trade.stop_loss then (some trade.stop_loss, some TradeStatus.CLOSED_SL)
    else if high ≥ trade.take_profit then (some trade.take_profit, some TradeStatus.CLOSED_TP)
    else (none, none)
  else
    if high ≥ trade.stop_loss then (some trade.stop_loss, some TradeStatus.CLOSED_SL)
    else if low ≤ trade.take_profit then (some trade.take_profit, some TradeStatus.CLOSED_TP)
    else (none, none)

/-- The per-run mutable state of `BacktestEngine.run` (backtest.py
lines 258-263). -/
structure RunState where
  balance : ℚ
  peak_balance : ℚ
  max_drawdown : ℚ
  trade_id : Nat
  current_trade : Option BacktestTrade
  trades : List BacktestTrade
deriving DecidableEq, Repr

/-- One iteration of the bar loop of `BacktestEngine.run` (backtest.py
lines 274-360) at bar `i`.  `now` models the wall clock read by
`datetime.now()`, used for the bar timestamp only when the table has
no timestamp column. -/
def stepBar (E : EngineParams) (gen : SigGen) (system_name symbol : String)
    (c : Candles) (now : Int) (st : RunState) (i : Nat) : RunState :=
  let current_bar := c.bars.getD i dCandle
  let bar_timestamp := if c.hasTs = true then current_bar.ts else now
  let high := current_bar.high
  let low := current_bar.low
  let close := current_bar.close
  let st1 :=
    match st.current_trade with
    | none => st
    | some t =>
        match _check_exit t high low close with
        | (some exit_price, some exit_reason) =>
            let pnl0 :=
              if t.signal_type = SignalType.LONG then
                (exit_price - t.entry_price) * t.position_size
              else (t.entry_price - exit_price) * t.position_size
            let commission := |pnl0| * (E.commission_pct / 100)
            let pnl := pnl0 - commission
            let r_multiple :=
              if t.risk_amount > 0 then pnl / (t.risk_amount * t.position_size)
              else t.r_multiple
            let balance := st.balance + pnl
            let closed :=
              { t with
                  exit_time := some bar_timestamp
                  exit_price := some exit_price
                  exit_bar := some i
                  exit_reason := some exit_reason
                  pnl := pnl
                  pnl_percent := pnl / E.initial_balance * 100
                  r_multiple := r_multiple }
            let peak_balance := if balance > st.peak_balance then balance else st.peak_balance
            let drawdown := peak_balance - balance
            let max_drawdown := if drawdown > st.max_drawdown then drawdown else st.max_drawdown
            { balance := balance
              peak_balance := peak_balance
              max_drawdown := max_drawdown
              trade_id := st.trade_id
              current_trade := none
              trades := st.trades ++ [closed] }
        | _ => st
  match st1.current_trade with
  | some _ => st1
  | none =>
      match gen (c.bars.take (i + 1)) symbol st1.balance with
      | [] => st1
      | signal :: _ =>
          let slippage := close * (E.slippage_pct / 100)
          let entry_price :=
            if signal.signal_type = SignalType.LONG then close + slippage else close - slippage
          { st1 with
              trade_id := st1.trade_id + 1
              current_trade := some
                { trade_id := st1.trade_id + 1
                  system_name := system_name
                  signal_type := signal.signal_type
                  entry_time := bar_timestamp
                  entry_price := entry_price
                  entry_bar := i
                  exit_time := none, exit_price := none
                  exit_bar := none, exit_reason := none
                  stop_loss := signal.stop_loss
                  take_profit := signal.take_profit
                  position_size := signal.position_size
                  risk_amount := signal.risk_amount
                  pnl := 0, pnl_percent := 0, r_multiple := 0 } }

/-- The bar loop of `BacktestEngine.run`: `min_bars = 50` bars of
warm-up, then one `stepBar` per remaining bar. -/
def runLoop (E : EngineParams) (gen : SigGen) (system_name symbol : String)
    (c : Candles) (now : Int) : RunState :=
  (List.range' 50 (c.bars.length - 50)).foldl
    (stepBar E gen system_name symbol c now)
    { balance := E.initial_balance
      peak_balance := E.initial_balance
      max_drawdown := 0
      trade_id := 0
      current_trade := none
      trades := [] }

/-- The tail of `BacktestEngine.run` (backtest.py lines 362-395):
force-close a remaining open trade at the last close with reason EOD
(no commission, no `pnl_percent`, no peak/drawdown update) and
assemble the `BacktestResults`. -/
def finalizeRun (E : EngineParams) (system : TradingSystem) (c : Candles)
    (symbol : String) (now : Int) (s : RunState) : BacktestResults :=
  let start_date := if c.hasTs = true then (c.bars.getD 0 dCandle).ts else now
  let end_date := if c.hasTs = true then (c.bars.getD (c.bars.length - 1) dCandle).ts else now
  let final :=
    match s.current_trade with
    | none => (s.balance, s.trades)
    | some t =>
        let exit_price := (c.bars.getD (c.bars.length - 1) dCandle).close
        let pnl :=
          if t.signal_type = SignalType.LONG then
            (exit_price - t.entry_price) * t.position_size
          else (t.entry_price - exit_price) * t.position_size
        let r_multiple :=
          if t.risk_amount > 0 then pnl / (t.risk_amount * t.position_size)
          else t.r_multiple
        let closed :=
          { t with
              exit_time := some end_date
              exit_price := some exit_price
              exit_bar := some (c.bars.length - 1)
              exit_reason := some TradeStatus.CLOSED_EOD
              pnl := pnl
              r_multiple := r_multiple }
        (s.balance + pnl, s.trades ++ [closed])
  { system_name := system.name
    symbol := symbol
    timeframe := system.timeframe
    start_date := start_date
    end_date := end_date
    trades := final.2
    initial_balance := E.initial_balance
    final_balance := final.1
    peak_balance := s.peak_balance
    max_drawdown := s.max_drawdown
    max_drawdown_percent :=
      if s.peak_balance > 0 then s.max_drawdown / s.peak_balance * 100 else 0 }

/-- `BacktestEngine.run` (backtest.py lines 238-395): the warm-up bar
loop followed by the end-of-data close.  `now` supplies every
`datetime.now()` read of the invocation. -/
def BacktestEngine.run (E : EngineParams) (gen : SigGen) (system : TradingSystem)
    (c : Candles) (symbol : String) (now : Int) : BacktestResults :=
  finalizeRun E system c symbol now (runLoop E gen system.name symbol c now)

/-- A bar with the given high, low and close (open = close, no
volume, timestamp 0), for concrete test tables. -/
def mkBar (h l c : ℚ) : Candle := ⟨0, c, h, l, c, 0⟩

/-- A bar carrying a timestamp, for tables with a timestamp column. -/
def mkBarT (t : Int) (h l c : ℚ) : Candle := ⟨t, c, h, l, c, 0⟩

/-- Concrete 7-bar table whose swing sequence carries two LH highs and
one LL low (a downtrend window with at least four swings). -/
def dnC : Candles := ⟨[
  mkBar 110 100 105,
  mkBar 111 101 (221/2),
  mkBar 105 99 (199/2),
  mkBar 108 101 104,
  mkBar 104 97 98,
  mkBar 100 95 96,
  mkBar 106 96 105], false⟩

/-- Concrete 7-bar table producing exactly one swing high (index 1,
price 101) followed by one swing low (index 2, price 88), whose
candidate range survives the whole touch window with only 2 touches. -/
def rngC : Candles := ⟨[
  mkBar 100 90 95,
  mkBar 101 91 95,
  mkBar 96 88 89,
  mkBar 95 90 92,
  mkBar (10103/100) 93 (10102/100),
  mkBar 95 92 94,
  mkBar 95 92 94], false⟩

/-- `rngC` with one extra low touch at bar 3, so the same candidate
range reaches 3 touches and is CONFIRMED. -/
def rngC2 : Candles := ⟨[
  mkBar 100 90 95,
  mkBar 101 91 95,
  mkBar 96 88 89,
  mkBar 95 (8802/100) 92,
  mkBar (10103/100) 93 (10102/100),
  mkBar 95 92 94,
  mkBar 95 92 94], false⟩

/-- Default-like range parameters with `min_range_bars = 1`
(`touch_tolerance_pct = 0.3`, `min_touches = 3`,
`max_range_bars = 100`). -/
def P5 : RangeParams := ⟨3/10, 3, 1, 100⟩

/-- The swing high of `rngC` (and `rngC2`). -/
def rngHigh : SwingPoint := ⟨1, 101, SwingType.SWING_HIGH, 2, none, none, none⟩

/-- The swing low of `rngC` (and `rngC2`). -/
def rngLow : SwingPoint := ⟨2, 88, SwingType.SWING_LOW, 4, none, none, none⟩

/-- Concrete 6-bar table on which the default BOS detector finds one
bullish BOS: swing high at index 1 (level 111) is first broken by the
close of bar 5 while the most recent prior swing (index 3) is an HH. -/
def bosC : Candles := ⟨[
  mkBar 110 100 105,
  mkBar 111 101 (221/2),
  mkBar 105 99 (199/2),
  mkBar 112 103 108,
  mkBar 109 98 (197/2),
  mkBar (1118/10) 104 (223/2)], false⟩

/-- The broken swing high of `bosC`. -/
def bosSwing : SwingPoint := ⟨1, 111, SwingType.SWING_HIGH, 2, none, none, none⟩

/-- 51 identical bars without a timestamp column: the warm-up leaves a
single live bar, on which a signal opens a trade that stays open to
the end of data. -/
def flatC : Candles := ⟨List.replicate 51 (mkBar 100 90 95), false⟩

/-- `flatC` with a timestamp column. -/
def flatCT : Candles := ⟨List.replicate 51 (mkBar 100 90 95), true⟩

/-- A signal generator that always proposes the same Long signal whose
stop and target lie outside the bars of `flatC`. -/
def alwaysLong : SigGen := fun _ _ _ => [⟨SignalType.LONG, 80, 120, 1, 1⟩]

/-- Engine parameters: balance 10000, no commission, no slippage. -/
def E0 : EngineParams := ⟨10000, 0, 0⟩

/-- A minimal trading system (the driver only reads its name and
timeframe). -/
def sys0 : TradingSystem :=
  ⟨"sys", "15m", "both", [], ⟨StopLossType.ATR, 3/2, false, none⟩,
   ⟨TakeProfitType.RISK_REWARD, 3, none⟩, [], 1, 1, "", true⟩

/-- The trade left open by the bar loop of `BacktestEngine.run E0
alwaysLong sys0 flatC "X" 0`. -/
def c10Trade : BacktestTrade :=
  ⟨1, "sys", SignalType.LONG, 0, 95, 50, none, none, none, none, 80, 120, 1, 1, 0, 0, 0⟩

/-- A Long trade at entry 100 with stop 99 and target 102 (the spec's
SL-first example). -/
def tradeL : BacktestTrade :=
  ⟨1, "sys", SignalType.LONG, 0, 100, 50, none, none, none, none, 99, 102, 1, 1, 0, 0, 0⟩

/-- A constructor table for parser tests: every registered type
builds a TRUE leaf. -/
def c9Construct : CondConstructor :=
  fun _ _ => some (BaseCondition.leaf "x" ConditionResult.TRUE)

/-- A strategy document whose single entry condition has a type
string outside the registry and which sets no `enabled` key. -/
def c9Doc : SystemDoc :=
  ⟨none, none, none, some ⟨some [⟨some "unknown_type", []⟩]⟩, none,
   none, none, none, none, none, none⟩

/-- Loop invariant of `detect_swings`: emitted swings are strictly
ordered by bar index, all of them lie strictly before both running
extremes, and both extremes lie strictly before the next bar. -/
def SwingInv (st : SwingState) : Prop :=
  st.swings.Pairwise (fun a b => a.index < b.index) ∧
  (∀ s ∈ st.swings, s.index < st.highest_since_low.index ∧
    s.index < st.lowest_since_high.index) ∧
  st.highest_since_low.index < st.i ∧ st.lowest_since_high.index < st.i

/-- The confirmed range detected on `rngC2`. -/
def c5Range : Range :=
  ⟨101, 88, 1, 6, 1, 2, RangeStatus.CONFIRMED, some rngHigh, some rngLow⟩

/-- The single bullish BOS detected on `bosC`. -/
def bosBreak : StructureBreak :=
  ⟨BreakType.BOS_BULLISH, 5, 111, 223/2, bosSwing, none, none, none⟩

/-! ## Swing detector lemmas and claim C4 -/

/-- A bar step only ever appends to the emitted swing list. -/
theorem stepSwing_swings_mono (u h : Bool) (st : SwingState) (b : Candle) :
    st.swings <+: (stepSwing u h st b).swings := by
  unfold stepSwing
  dsimp only
  repeat' split
  all_goals first
    | exact List.prefix_rfl
    | exact ⟨_, rfl⟩
/-- `stepSwing` preserves the swing-detector loop invariant. -/
theorem stepSwing_inv (u h : Bool) (st : SwingState) (b : Candle) (H : SwingInv st) :
    SwingInv (stepSwing u h st b) := by
  obtain ⟨hpw, hmem, hhi, hlo⟩ := H
  unfold stepSwing
  dsimp only
  by_cases hbh : b.high > st.highest_since_low.price <;>
    by_cases hbl : b.low < st.lowest_since_high.price
  · -- both cursors update: no emission can fire
    simp only [if_pos hbh, if_pos hbl, lt_self_iff_false, if_false]
    by_cases hup : (if u then b.close else b.high) > st.current_swing_high.price
    · rw [if_pos hup]
      exact ⟨hpw, fun s hs => ⟨(hmem s hs).1.trans hhi, (hmem s hs).1.trans hhi⟩,
        Nat.lt_succ_self _, Nat.lt_succ_self _⟩
    · rw [if_neg hup]
      by_cases hdn : (if u then b.close else b.low) < st.current_swing_low.price
      · rw [if_pos hdn]
        exact ⟨hpw, fun s hs => ⟨(hmem s hs).1.trans hhi, (hmem s hs).1.trans hhi⟩,
          Nat.lt_succ_self _, Nat.lt_succ_self _⟩
      · rw [if_neg hdn]
        exact ⟨hpw, fun s hs => ⟨(hmem s hs).1.trans hhi, (hmem s hs).2.trans hlo⟩,
          Nat.lt_succ_self _, Nat.lt_succ_self _⟩
  · -- only the high cursor updates
    simp only [if_pos hbh, if_neg hbl, lt_self_iff_false, if_false]
    by_cases hup : (if u then b.close else b.high) > st.current_swing_high.price
    · rw [if_pos hup, if_pos hlo]
      refine ⟨?_, ?_, Nat.lt_succ_self _, Nat.lt_succ_self _⟩
      · rw [List.pairwise_append]
        refine ⟨hpw, List.pairwise_singleton _ _, ?_⟩
        intro a ha x hx
        rw [List.mem_singleton] at hx
        subst hx
        exact (hmem a ha).2
      · intro s hs
        rcases List.mem_append.1 hs with hold | hnew
        · exact ⟨(hmem s hold).2.trans hlo, (hmem s hold).2.trans hlo⟩
        · rw [List.mem_singleton] at hnew
          subst hnew
          exact ⟨hlo, hlo⟩
    · rw [if_neg hup]
      by_cases hdn : (if u then b.close else b.low) < st.current_swing_low.price
      · rw [if_pos hdn]
        exact ⟨hpw, fun s hs => ⟨(hmem s hs).1.trans hhi, (hmem s hs).1.trans hhi⟩,
          Nat.lt_succ_self _, Nat.lt_succ_self _⟩
      · rw [if_neg hdn]
        exact ⟨hpw, fun s hs => ⟨(hmem s hs).1.trans hhi, (hmem s hs).2⟩,
          Nat.lt_succ_self _, hlo.trans (Nat.lt_succ_self _)⟩
  · -- only the low cursor updates
    simp only [if_neg hbh, if_pos hbl, lt_self_iff_false, if_false]
    by_cases hup : (if u then b.close else b.high) > st.current_swing_high.price
    · rw [if_pos hup]
      exact ⟨hpw, fun s hs => ⟨(hmem s hs).1.trans hhi, (hmem s hs).1.trans hhi⟩,
        Nat.lt_succ_self _, Nat.lt_succ_self _⟩
    · rw [if_neg hup]
      by_cases hdn : (if u then b.close else b.low) < st.current_swing_low.price
      · rw [if_pos hdn, if_pos hhi]
        refine ⟨?_, ?_, Nat.lt_succ_self _, Nat.lt_succ_self _⟩
        · rw [List.pairwise_append]
          refine ⟨hpw, List.pairwise_singleton _ _, ?_⟩
          intro a ha x hx
          rw [List.mem_singleton] at hx
          subst hx
          exact (hmem a ha).1
        · intro s hs
          rcases List.mem_append.1 hs with hold | hnew
          · exact ⟨(hmem s hold).1.trans hhi, (hmem s hold).1.trans hhi⟩
          · rw [List.mem_singleton] at hnew
            subst hnew
            exact ⟨hhi, hhi⟩
      · rw [if_neg hdn]
        exact ⟨hpw, fun s hs => ⟨(hmem s hs).1, (hmem s hs).2.trans hlo⟩,
          hhi.trans (Nat.lt_succ_self _), Nat.lt_succ_self _⟩
  · -- neither cursor updates
    simp only [if_neg hbh, if_neg hbl]
    by_cases hup : (if u then b.close else b.high) > st.current_swing_high.price
    · rw [if_pos hup, if_pos hlo]
      refine ⟨?_, ?_, Nat.lt_succ_self _, Nat.lt_succ_self _⟩
      · rw [List.pairwise_append]
        refine ⟨hpw, List.pairwise_singleton _ _, ?_⟩
        intro a ha x hx
        rw [List.mem_singleton] at hx
        subst hx
        exact (hmem a ha).2
      · intro s hs
        rcases List.mem_append.1 hs with hold | hnew
        · exact ⟨(hmem s hold).2.trans hlo, (hmem s hold).2.trans hlo⟩
        · rw [List.mem_singleton] at hnew
          subst hnew
          exact ⟨hlo, hlo⟩
    · rw [if_neg hup]
      by_cases hdn : (if u then b.close else b.low) < st.current_swing_low.price
      · rw [if_pos hdn, if_pos hhi]
        refine ⟨?_, ?_, Nat.lt_succ_self _, Nat.lt_succ_self _⟩
        · rw [List.pairwise_append]
          refine ⟨hpw, List.pairwise_singleton _ _, ?_⟩
          intro a ha x hx
          rw [List.mem_singleton] at hx
          subst hx
          exact (hmem a ha).1
        · intro s hs
          rcases List.mem_append.1 hs with hold | hnew
          · exact ⟨(hmem s hold).1.trans hhi, (hmem s hold).1.trans hhi⟩
          · rw [List.mem_singleton] at hnew
            subst hnew
            exact ⟨hhi, hhi⟩
      · rw [if_neg hdn]
        exact ⟨hpw, fun s hs => ⟨(hmem s hs).1, (hmem s hs).2⟩,
          hhi.trans (Nat.lt_succ_self _), hlo.trans (Nat.lt_succ_self _)⟩


/-- The initial detector state satisfies the loop invariant. -/
theorem initSwingState_inv (b0 : Candle) : SwingInv (initSwingState b0) := by
  refine ⟨List.Pairwise.nil, ?_, Nat.zero_lt_one, Nat.zero_lt_one⟩
  intro s hs
  exact absurd hs (List.not_mem_nil s)

/-- The whole bar loop preserves the invariant. -/
theorem foldlSwing_inv (u h : Bool) (l : List Candle) (st : SwingState) (H : SwingInv st) :
    SwingInv (l.foldl (stepSwing u h) st) := by
  induction l generalizing st with
  | nil => exact H
  | cons b l ih => exact ih _ (stepSwing_inv u h st b H)

/-- Sorting by index is the identity on an index-sorted swing list. -/
theorem sortByIndex_of_pairwise (l : List SwingPoint)
    (h : l.Pairwise (fun a b => a.index < b.index)) : sortByIndex l = l := by
  unfold sortByIndex
  exact List.mergeSort_of_sorted (h.imp fun hab => by simpa using Nat.le_of_lt hab)

/-- Emitted swings are strictly increasing in bar index. -/
theorem detect_swings_sorted (u : Bool) (c : Candles) :
    (detect_swings u c).Pairwise (fun a b => a.index < b.index) := by
  unfold detect_swings
  split
  · exact List.Pairwise.nil
  · split
    next => exact List.Pairwise.nil
    next b0 rest heq =>
      have hinv := foldlSwing_inv u c.hasTs rest (initSwingState b0) (initSwingState_inv b0)
      rw [sortByIndex_of_pairwise _ hinv.1]
      exact hinv.1

/-- C4: appending a single bar to a candle table extends the swing
list returned by `SwingDetector.detect_swings` without modifying the
swings already emitted — the old list is a prefix of the new one, so
index, price, kind, confirmation index and structure classification of
every previously emitted swing are unchanged. -/
theorem C4_detect_swings_monotone_append (use_close : Bool) (c : Candles) (b : Candle) :
    detect_swings use_close c <+: detect_swings use_close ⟨c.bars ++ [b], c.hasTs⟩ := by
  rcases c with ⟨bars, hasTs⟩
  dsimp only
  by_cases h2 : bars.length < 3
  · rw [detect_swings]
    dsimp only
    rw [if_pos h2]
    exact List.nil_prefix
  · rcases bars with _ | ⟨b0, rest⟩
    · exact absurd (by simp) h2
    · have h3 : ¬ (b0 :: (rest ++ [b])).length < 3 := by
        have hlen : (b0 :: (rest ++ [b])).length = (b0 :: rest).length + 1 := by simp
        omega
      rw [detect_swings, detect_swings]
      dsimp only
      rw [if_neg h2, List.cons_append, if_neg h3]
      dsimp only
      have hinv1 := foldlSwing_inv use_close hasTs rest (initSwingState b0) (initSwingState_inv b0)
      have hinv2 := foldlSwing_inv use_close hasTs (rest ++ [b]) (initSwingState b0)
        (initSwingState_inv b0)
      rw [sortByIndex_of_pairwise _ hinv1.1, sortByIndex_of_pairwise _ hinv2.1, List.foldl_append]
      exact stepSwing_swings_mono use_close hasTs _ b

/-! ## Fibonacci levels: claim C8 -/

/-- C8: for a range with `low < high` the derived Fibonacci levels are
strictly ordered between the boundaries, and the 50% level is the
arithmetic midpoint. -/
theorem C8_fib_levels_ordered (r : Range) (h : r.low < r.high) :
    r.low < r.fib.fib_25 ∧ r.fib.fib_25 < r.fib.fib_50 ∧ r.fib.fib_50 < r.fib.fib_75 ∧
    r.fib.fib_75 < r.high ∧ r.fib.fib_50 = (r.high + r.low) / 2 := by
  unfold Range.fib FibLevels.fib_25 FibLevels.fib_50 FibLevels.fib_75
  dsimp only
  norm_num
  refine ⟨by linarith, by linarith, by linarith, by linarith, by ring⟩

/-- Witness for C8 at the concrete range [0, 1]. -/
theorem C8_witness :
    (Range.mk 1 0 0 0 0 0 RangeStatus.FORMING none none).low <
      (Range.mk 1 0 0 0 0 0 RangeStatus.FORMING none none).high ∧
    ((Range.mk 1 0 0 0 0 0 RangeStatus.FORMING none none).fib.fib_50 =
      ((Range.mk 1 0 0 0 0 0 RangeStatus.FORMING none none).high +
       (Range.mk 1 0 0 0 0 0 RangeStatus.FORMING none none).low) / 2) :=
  ⟨by norm_num, (C8_fib_levels_ordered (Range.mk 1 0 0 0 0 0 RangeStatus.FORMING none none)
    (by norm_num)).2.2.2.2⟩

/-! ## Condition algebra: claim C7 -/

/-- C7: the And/Or/Not combinators realize exactly the three-valued
truth tables of the spec: And is True iff both operands are True,
False if either is False, Neutral otherwise; Or is True iff either is
True, False iff both are False, Neutral otherwise; Not swaps True and
False and preserves Neutral. -/
theorem C7_combinators (cond1 cond2 condition : BaseCondition) :
    (condEvaluate (BaseCondition.andC cond1 cond2)).result =
      specAnd (condEvaluate cond1).result (condEvaluate cond2).result ∧
    (condEvaluate (BaseCondition.orC cond1 cond2)).result =
      specOr (condEvaluate cond1).result (condEvaluate cond2).result ∧
    (condEvaluate (BaseCondition.notC condition)).result =
      specNot (condEvaluate condition).result := by
  refine ⟨?_, ?_, ?_⟩
  · rcases h1 : (condEvaluate cond1).result <;> rcases h2 : (condEvaluate cond2).result <;>
      simp [condEvaluate, specAnd, h1, h2]
  · rcases h1 : (condEvaluate cond1).result <;> rcases h2 : (condEvaluate cond2).result <;>
      simp [condEvaluate, specOr, h1, h2]
  · rcases h : (condEvaluate condition).result <;> simp [condEvaluate, specNot, h]

/-! ## Backtest exit rule: claim C2 -/

/-- C2: on a bar touching both stop and target the driver exits a
Long at the stop (SL-first); a single touched level exits at that
level; no touch, no exit; symmetric for Short (where the stop is
above and the target below). -/
theorem C2_check_exit_sl_first (trade : BacktestTrade) (high low close : ℚ) :
    (trade.signal_type = SignalType.LONG →
      ((low ≤ trade.stop_loss ∧ trade.take_profit ≤ high →
          _check_exit trade high low close = (some trade.stop_loss, some TradeStatus.CLOSED_SL)) ∧
       (low ≤ trade.stop_loss ∧ ¬ trade.take_profit ≤ high →
          _check_exit trade high low close = (some trade.stop_loss, some TradeStatus.CLOSED_SL)) ∧
       (¬ low ≤ trade.stop_loss ∧ trade.take_profit ≤ high →
          _check_exit trade high low close = (some trade.take_profit, some TradeStatus.CLOSED_TP)) ∧
       (¬ low ≤ trade.stop_loss ∧ ¬ trade.take_profit ≤ high →
          _check_exit trade high low close = (none, none)))) ∧
    (trade.signal_type = SignalType.SHORT →
      ((trade.stop_loss ≤ high ∧ low ≤ trade.take_profit →
          _check_exit trade high low close = (some trade.stop_loss, some TradeStatus.CLOSED_SL)) ∧
       (trade.stop_loss ≤ high ∧ ¬ low ≤ trade.take_profit →
          _check_exit trade high low close = (some trade.stop_loss, some TradeStatus.CLOSED_SL)) ∧
       (¬ trade.stop_loss ≤ high ∧ low ≤ trade.take_profit →
          _check_exit trade high low close = (some trade.take_profit, some TradeStatus.CLOSED_TP)) ∧
       (¬ trade.stop_loss ≤ high ∧ ¬ low ≤ trade.take_profit →
          _check_exit trade high low close = (none, none)))) := by
  constructor
  · intro hty
    refine ⟨?_, ?_, ?_, ?_⟩ <;> rintro ⟨h1, h2⟩ <;>
      simp [_check_exit, hty, h1, h2, ge_iff_le]
  · intro hty
    have hne : trade.signal_type ≠ SignalType.LONG := by rw [hty]; intro hc; cases hc
    refine ⟨?_, ?_, ?_, ?_⟩ <;> rintro ⟨h1, h2⟩ <;>
      simp [_check_exit, hne, h1, h2, ge_iff_le]

/-- Witness for C2: the spec's SL-first example (entry 100, SL 99,
TP 102; bar low 98, high 103) exits at the stop with reason SL. -/
theorem C2_witness :
    tradeL.signal_type = SignalType.LONG ∧ (98:ℚ) ≤ tradeL.stop_loss ∧
    tradeL.take_profit ≤ (103:ℚ) ∧
    _check_exit tradeL 103 98 99 = (some tradeL.stop_loss, some TradeStatus.CLOSED_SL) := by
  refine ⟨rfl, by norm_num [tradeL], by norm_num [tradeL], ?_⟩
  exact ((C2_check_exit_sl_first tradeL 103 98 99).1 rfl).1
    ⟨by norm_num [tradeL], by norm_num [tradeL]⟩

/-! ## Structure analyzer regime: claim C3 -/

/-- One structure marker occurs in a swing window iff its count is
positive. -/
theorem countP_structure_pos (R : List SwingPoint) (t : StructureType) :
    1 ≤ R.countP (fun s => s.structure_ == some t) ↔
      ∃ s ∈ R, s.structure_ = some t := by
  rw [Nat.one_le_iff_ne_zero, ← Nat.pos_iff_ne_zero, List.countP_pos]
  simp

/-- C3 (amended): with fewer than four swings `analyze` reports
`unknown` (not `ranging`); with at least four swings the regime over
the last at most six swings is `uptrend` iff an HH and an HL are
present, otherwise `downtrend` iff an LH and an LL are present,
otherwise `ranging`. -/
theorem C3_regime_classification (use_close : Bool) (c : Candles) :
    ((detect_swings use_close c).length < 4 → (analyze use_close c).trend = "unknown") ∧
    (4 ≤ (detect_swings use_close c).length →
      (((analyze use_close c).trend = "uptrend" ↔
          (∃ s ∈ recentOf (detect_swings use_close c),
            s.structure_ = some StructureType.HIGHER_HIGH) ∧
          (∃ s ∈ recentOf (detect_swings use_close c),
            s.structure_ = some StructureType.HIGHER_LOW)) ∧
       ((analyze use_close c).trend = "downtrend" ↔
          (¬ ((∃ s ∈ recentOf (detect_swings use_close c),
                s.structure_ = some StructureType.HIGHER_HIGH) ∧
              (∃ s ∈ recentOf (detect_swings use_close c),
                s.structure_ = some StructureType.HIGHER_LOW)) ∧
           (∃ s ∈ recentOf (detect_swings use_close c),
             s.structure_ = some StructureType.LOWER_HIGH) ∧
           (∃ s ∈ recentOf (detect_swings use_close c),
             s.structure_ = some StructureType.LOWER_LOW))) ∧
       ((analyze use_close c).trend = "ranging" ↔
          (¬ ((∃ s ∈ recentOf (detect_swings use_close c),
                s.structure_ = some StructureType.HIGHER_HIGH) ∧
              (∃ s ∈ recentOf (detect_swings use_close c),
                s.structure_ = some StructureType.HIGHER_LOW)) ∧
           ¬ ((∃ s ∈ recentOf (detect_swings use_close c),
                s.structure_ = some StructureType.LOWER_HIGH) ∧
              (∃ s ∈ recentOf (detect_swings use_close c),
                s.structure_ = some StructureType.LOWER_LOW)))))) := by
  constructor
  · intro h4
    rw [analyze]
    dsimp only
    rw [if_pos h4]
  · intro h4
    rw [analyze]
    dsimp only
    rw [if_neg (not_lt.mpr h4)]
    dsimp only
    by_cases hup : 1 ≤ (recentOf (detect_swings use_close c)).countP
        (fun s => s.structure_ == some StructureType.HIGHER_HIGH) ∧
        1 ≤ (recentOf (detect_swings use_close c)).countP
        (fun s => s.structure_ == some StructureType.HIGHER_LOW)
    · rw [if_pos hup]
      rw [countP_structure_pos, countP_structure_pos] at hup
      refine ⟨by simp [hup], by simp [hup.1, hup.2], by simp [hup.1, hup.2]⟩
    · rw [if_neg hup]
      rw [countP_structure_pos, countP_structure_pos] at hup
      by_cases hdn : 1 ≤ (recentOf (detect_swings use_close c)).countP
          (fun s => s.structure_ == some StructureType.LOWER_HIGH) ∧
          1 ≤ (recentOf (detect_swings use_close c)).countP
          (fun s => s.structure_ == some StructureType.LOWER_LOW)
      · rw [if_pos hdn]
        rw [countP_structure_pos, countP_structure_pos] at hdn
        refine ⟨by simp [hup], by simp [hup, hdn.1, hdn.2], by simp [hup, hdn.1, hdn.2]⟩
      · rw [if_neg hdn]
        rw [countP_structure_pos, countP_structure_pos] at hdn
        refine ⟨by simp [hup], by simp [hup, hdn], by simp [hup, hdn]⟩

/-- Counterexample to C3 as stated: on an empty candle table there
are fewer than four swings, and `analyze` classifies the regime as
`unknown`, not `ranging`. -/
theorem C3_counterexample :
    (detect_swings true (Candles.mk [] false)).length < 4 ∧
    (analyze true (Candles.mk [] false)).trend = "unknown" ∧
    (analyze true (Candles.mk [] false)).trend ≠ "ranging" := by
  refine ⟨by decide, by decide, by decide⟩

/-- Witness for C3 on a concrete table with five swings (two LH, one
LL): the classification is `downtrend`. -/
theorem C3_witness :
    4 ≤ (detect_swings true dnC).length ∧ (analyze true dnC).trend = "downtrend" := by
  refine ⟨by with_unfolding_all decide, ?_⟩
  exact ((C3_regime_classification true dnC).2 (by with_unfolding_all decide)).2.1.mpr
    ⟨by with_unfolding_all decide, by with_unfolding_all decide, by with_unfolding_all decide⟩

/-! ## Range detector: claim C5 -/

/-- The forward scan only ever reports a broken-up or broken-down status. -/
theorem touchScan_break_status (c : Candles) (rh rl tol : ℚ) :
    ∀ fuel i hi lo hi' lo' j st,
      touchScan c rh rl tol fuel i hi lo = (hi', lo', some (j, st)) →
      st = RangeStatus.BROKEN_UP ∨ st = RangeStatus.BROKEN_DOWN := by
  intro fuel
  induction fuel with
  | zero => intro i hi lo hi' lo' j st h; simp [touchScan] at h
  | succ n ih =>
    intro i hi lo hi' lo' j st h
    rw [touchScan] at h
    try dsimp only at h
    split at h
    · rw [Prod.mk.injEq, Prod.mk.injEq] at h
      obtain ⟨-, -, h3⟩ := h
      rw [Option.some.injEq, Prod.mk.injEq] at h3
      exact Or.inl h3.2.symm
    · split at h
      · rw [Prod.mk.injEq, Prod.mk.injEq] at h
        obtain ⟨-, -, h3⟩ := h
        rw [Option.some.injEq, Prod.mk.injEq] at h3
        exact Or.inr h3.2.symm
      · exact ih _ _ _ _ _ _ _ h

/-- A candidate that ends its window still FORMING has fewer than `min_touches` touches. -/
theorem create_range_forming (P : RangeParams) (c : Candles) (hs ls : SwingPoint) (r : Range)
    (h : _create_range P c hs ls = some r) (hst : r.status = RangeStatus.FORMING) :
    r.high_touches + r.low_touches < P.min_touches := by
  rw [_create_range] at h
  try dsimp only at h
  split at h
  · exact absurd h (by simp)
  · split at h
    next hi lo j st hscan =>
      rw [Option.some.injEq] at h
      subst h
      rcases touchScan_break_status c hs.price ls.price _ _ _ _ _ _ _ _ _ hscan with h1 | h1 <;>
        (rw [h1] at hst; exact absurd hst (by simp))
    next hi lo hscan =>
      rw [Option.some.injEq] at h
      subst h
      by_cases hm : hi + lo ≥ P.min_touches
      · exfalso
        have h2 : (if hi + lo ≥ P.min_touches then RangeStatus.CONFIRMED
            else RangeStatus.FORMING) = RangeStatus.FORMING := hst
        rw [if_pos hm] at h2
        exact absurd h2 (by simp)
      · show hi + lo < P.min_touches
        omega

/-- Every range accumulated by the `detect_ranges` loop passed the `is_valid` gate and came from `_create_range`. -/
theorem rangesFold_mem (P : RangeParams) (c : Candles) (lows : List SwingPoint) :
    ∀ (l : List SwingPoint) (acc : List Range),
      (∀ r ∈ acc, r.is_valid P.min_touches = true ∧
        ∃ hs ls, _create_range P c hs ls = some r) →
      ∀ r ∈ l.foldl (fun acc swing =>
          if swing.is_high then
            match (lows.filter (fun s => s.index > swing.index)).head? with
            | some low_swing =>
                match _create_range P c swing low_swing with
                | some range_obj =>
                    if range_obj.is_valid P.min_touches then acc ++ [range_obj] else acc
                | none => acc
            | none => acc
          else acc) acc,
        r.is_valid P.min_touches = true ∧ ∃ hs ls, _create_range P c hs ls = some r := by
  intro l
  induction l with
  | nil => intro acc hacc r hr; exact hacc r hr
  | cons swing l ih =>
    intro acc hacc r hr
    rw [List.foldl_cons] at hr
    refine ih _ ?_ r hr
    intro r' hr'
    by_cases hh : swing.is_high
    · rw [if_pos hh] at hr'
      rcases hhead : (lows.filter (fun s => s.index > swing.index)).head? with _ | ls0
      · simp only [hhead] at hr'
        exact hacc r' hr'
      · simp only [hhead] at hr'
        rcases hcr : _create_range P c swing ls0 with _ | r0
        · simp only [hcr] at hr'
          exact hacc r' hr'
        · simp only [hcr] at hr'
          by_cases hv : r0.is_valid P.min_touches
          · rw [if_pos hv] at hr'
            rcases List.mem_append.1 hr' with hold | hnew
            · exact hacc r' hold
            · rw [List.mem_singleton] at hnew
              subst hnew
              exact ⟨hv, swing, ls0, hcr⟩
          · rw [if_neg hv] at hr'
            exact hacc r' hr'
    · rw [if_neg hh] at hr'
      exact hacc r' hr'

/-- Members of `detect_ranges` output: validated candidates of `_create_range`. -/
theorem detect_ranges_mem (P : RangeParams) (uc : Bool) (c : Candles) :
    ∀ r ∈ detect_ranges P uc c,
      r.is_valid P.min_touches = true ∧ ∃ hs ls, _create_range P c hs ls = some r := by
  intro r hr
  rw [detect_ranges] at hr
  dsimp only at hr
  split at hr
  · exact absurd hr (List.not_mem_nil r)
  · exact rangesFold_mem P c _ _ [] (by intro x hx; exact absurd hx (List.not_mem_nil x)) r hr

/-- Characterization of the last element of a filtered list. -/
theorem getLast_filter_spec (p : Range → Bool) (l : List Range) :
    ((l.filter p).getLast? = none → ∀ x ∈ l, p x = false) ∧
    (∀ r, (l.filter p).getLast? = some r →
      p r = true ∧ ∃ l1 l2, l = l1 ++ r :: l2 ∧ ∀ x ∈ l2, p x = false) := by
  induction l using List.reverseRecOn with
  | nil => simp
  | append_singleton l a ih =>
    rw [List.filter_append]
    by_cases hpa : p a
    · rw [show List.filter p [a] = [a] from by simp [hpa]]
      rw [List.getLast?_concat]
      constructor
      · intro hc
        exact absurd hc (by simp)
      · intro r hr
        rw [Option.some.injEq] at hr
        subst hr
        exact ⟨hpa, l, [], rfl, by intro x hx; exact absurd hx (List.not_mem_nil x)⟩
    · rw [show List.filter p [a] = [] from by simp [hpa]]
      rw [List.append_nil]
      constructor
      · intro hnone x hx
        rcases List.mem_append.1 hx with hxl | hxa
        · exact ih.1 hnone x hxl
        · rw [List.mem_singleton] at hxa
          subst hxa
          exact Bool.not_eq_true _ ▸ (by simpa using hpa)
      · intro r hr
        obtain ⟨hpr, l1, l2, hdec, htail⟩ := ih.2 r hr
        refine ⟨hpr, l1, l2 ++ [a], by rw [hdec]; simp, ?_⟩
        intro x hx
        rcases List.mem_append.1 hx with hxl | hxa
        · exact htail x hxl
        · rw [List.mem_singleton] at hxa
          subst hxa
          simpa using hpa

/-- C5 (amended): `detect_ranges` returns only candidate ranges with
at least `min_touches` touches, so a range whose forward scan ends
with fewer than `min_touches` touches (status Forming) is never
returned; `detect_current_range` returns the most recent returned
range whose status is Forming or Confirmed, or none when no returned
range is active. -/
theorem C5_detect_ranges_filtered (P : RangeParams) (uc : Bool) (c : Candles) :
    (∀ r ∈ detect_ranges P uc c,
        P.min_touches ≤ r.total_touches ∧ r.status ≠ RangeStatus.FORMING) ∧
    (detect_current_range P uc c = none →
        ∀ r ∈ detect_ranges P uc c, r.is_active = false) ∧
    (∀ r, detect_current_range P uc c = some r →
        r.is_active = true ∧ ∃ l1 l2, detect_ranges P uc c = l1 ++ r :: l2 ∧
          ∀ x ∈ l2, x.is_active = false) := by
  refine ⟨?_, ?_, ?_⟩
  · intro r hr
    obtain ⟨hv, hs, ls, hcr⟩ := detect_ranges_mem P uc c r hr
    have hle : P.min_touches ≤ r.total_touches := by
      simpa [Range.is_valid] using hv
    refine ⟨hle, ?_⟩
    intro hform
    have hlt := create_range_forming P c hs ls r hcr hform
    unfold Range.total_touches at hle
    omega
  · intro hnone r hr
    rw [detect_current_range] at hnone
    exact (getLast_filter_spec (fun r => r.is_active) (detect_ranges P uc c)).1 hnone r hr
  · intro r hr
    rw [detect_current_range] at hr
    exact (getLast_filter_spec (fun r => r.is_active) (detect_ranges P uc c)).2 r hr

/-- Counterexample to C5 as stated: on `rngC` the candidate range
built from the only swing-high/swing-low pair passes the
`min_range_bars` check and ends its window with status Forming, yet
`detect_ranges` returns the empty list. -/
theorem C5_counterexample :
    detect_swings true rngC = [rngHigh, rngLow] ∧
    rngHigh.is_high = true ∧ rngLow.is_low = true ∧ rngHigh.index < rngLow.index ∧
    P5.min_range_bars ≤ rngLow.index - rngHigh.index ∧
    (_create_range P5 rngC rngHigh rngLow).map Range.status = some RangeStatus.FORMING ∧
    detect_ranges P5 true rngC = [] ∧
    detect_current_range P5 true rngC = none := by
  refine ⟨?_, ?_, ?_, ?_, ?_, ?_, ?_, ?_⟩ <;> with_unfolding_all decide

/-- Witness for C5 on `rngC2`, whose single candidate reaches 3 touches. -/
theorem C5_witness :
    c5Range ∈ detect_ranges P5 true rngC2 ∧
    (P5.min_touches ≤ c5Range.total_touches ∧ c5Range.status ≠ RangeStatus.FORMING) :=
  ⟨by with_unfolding_all decide,
   (C5_detect_ranges_filtered P5 true rngC2).1 c5Range (by with_unfolding_all decide)⟩


/-! ## Structure breaks: claim C6 -/

/-- A successful `find?` over `range'` hits the first index satisfying the predicate. -/
theorem find?_range'_spec (p : Nat → Bool) :
    ∀ n s i, (List.range' s n).find? p = some i →
      p i = true ∧ s ≤ i ∧ ∀ j, s ≤ j → j < i → p j = false := by
  intro n
  induction n with
  | zero => intro s i h; simp [List.range'] at h
  | succ n ih =>
    intro s i h
    rw [List.range'_succ, List.find?_cons] at h
    cases hp : p s with
    | true =>
      rw [hp] at h
      try dsimp only at h
      rw [Option.some.injEq] at h
      subst h
      exact ⟨hp, Nat.le_refl _, fun j h1 h2 => absurd (Nat.lt_of_le_of_lt h1 h2) (Nat.lt_irrefl _)⟩
    | false =>
      rw [hp] at h
      try dsimp only at h
      obtain ⟨hpi, hsi, hfirst⟩ := ih (s + 1) i h
      refine ⟨hpi, Nat.le_of_succ_le hsi, ?_⟩
      intro j h1 h2
      rcases Nat.eq_or_lt_of_le h1 with heq | hlt
      · rw [← heq]
        exact hp
      · exact hfirst j hlt h2

/-- In an index-sorted swing list, the bar index determines the swing. -/
theorem pairwise_index_inj (l : List SwingPoint)
    (h : l.Pairwise (fun a b => a.index < b.index)) :
    ∀ a ∈ l, ∀ b ∈ l, a.index = b.index → a = b := by
  induction l with
  | nil => intro a ha; exact absurd ha (List.not_mem_nil a)
  | cons x rest ih =>
    rw [List.pairwise_cons] at h
    intro a ha b hb heq
    rcases List.mem_cons.1 ha with rfl | ha' <;> rcases List.mem_cons.1 hb with rfl | hb'
    · rfl
    · exact absurd heq (Nat.ne_of_lt (h.1 b hb'))
    · exact absurd heq.symm (Nat.ne_of_lt (h.1 a ha'))
    · exact ih h.2 a ha' b hb' heq

/-- What a bullish BOS emission guarantees (first breach, HH/HL prior swing). -/
theorem detect_break_above_spec (c : Candles) (conf : Nat) (uc : Bool)
    (swing : SwingPoint) (all_swings : List SwingPoint) (b : StructureBreak)
    (h : _detect_break_above c conf uc swing all_swings = some b) :
    b.swing_broken = swing ∧ b.break_type = BreakType.BOS_BULLISH ∧
    swing.index + conf ≤ b.break_index ∧
    swing.price < checkPriceUp c uc b.break_index ∧
    (∀ j, swing.index + conf ≤ j → j < b.break_index →
      ¬ swing.price < checkPriceUp c uc j) ∧
    (∃ ls, (all_swings.filter (fun s => s.index < b.break_index)).getLast? = some ls ∧
       (ls.structure_ = some StructureType.HIGHER_HIGH ∨
        ls.structure_ = some StructureType.HIGHER_LOW)) := by
  rw [_detect_break_above] at h
  try dsimp only at h
  split at h
  next hfind => exact absurd h (by simp)
  next i hfind =>
    split at h
    next hlast => exact absurd h (by simp)
    next ls hlast =>
      split at h
      next hstruct =>
        rw [Option.some.injEq] at h
        subst h
        obtain ⟨hpi, hsi, hfirst⟩ := find?_range'_spec _ _ _ _ hfind
        refine ⟨rfl, rfl, hsi, of_decide_eq_true hpi, ?_, ls, hlast, hstruct⟩
        intro j h1 h2
        exact of_decide_eq_false (hfirst j h1 h2)
      next hstruct => exact absurd h (by simp)

/-- What a bearish BOS emission guarantees (first breach, LH/LL prior swing). -/
theorem detect_break_below_spec (c : Candles) (conf : Nat) (uc : Bool)
    (swing : SwingPoint) (all_swings : List SwingPoint) (b : StructureBreak)
    (h : _detect_break_below c conf uc swing all_swings = some b) :
    b.swing_broken = swing ∧ b.break_type = BreakType.BOS_BEARISH ∧
    swing.index + conf ≤ b.break_index ∧
    checkPriceDown c uc b.break_index < swing.price ∧
    (∀ j, swing.index + conf ≤ j → j < b.break_index →
      ¬ checkPriceDown c uc j < swing.price) ∧
    (∃ ls, (all_swings.filter (fun s => s.index < b.break_index)).getLast? = some ls ∧
       (ls.structure_ = some StructureType.LOWER_HIGH ∨
        ls.structure_ = some StructureType.LOWER_LOW)) := by
  rw [_detect_break_below] at h
  try dsimp only at h
  split at h
  next hfind => exact absurd h (by simp)
  next i hfind =>
    split at h
    next hlast => exact absurd h (by simp)
    next ls hlast =>
      split at h
      next hstruct =>
        rw [Option.some.injEq] at h
        subst h
        obtain ⟨hpi, hsi, hfirst⟩ := find?_range'_spec _ _ _ _ hfind
        refine ⟨rfl, rfl, hsi, of_decide_eq_true hpi, ?_, ls, hlast, hstruct⟩
        intro j h1 h2
        exact of_decide_eq_false (hfirst j h1 h2)
      next hstruct => exact absurd h (by simp)

/-- What a bullish MSB emission guarantees (first breach, two opposite-regime swings). -/
theorem detect_bullish_msb_spec (c : Candles) (conf : Nat) (uc : Bool)
    (swing : SwingPoint) (all_swings : List SwingPoint) (b : StructureBreak)
    (h : _detect_bullish_msb c conf uc swing all_swings = some b) :
    b.swing_broken = swing ∧ b.break_type = BreakType.MSB_BULLISH ∧
    swing.index + conf ≤ b.break_index ∧
    swing.price < checkPriceUp c uc b.break_index ∧
    (∀ j, swing.index + conf ≤ j → j < b.break_index →
      ¬ swing.price < checkPriceUp c uc j) ∧
    2 ≤ (all_swings.filter (fun s => s.index < b.break_index ∧
          (swing.index : Int) - 20 < (s.index : Int))).countP
        (fun s => s.structure_ == some StructureType.LOWER_HIGH ||
                  s.structure_ == some StructureType.LOWER_LOW) := by
  rw [_detect_bullish_msb] at h
  try dsimp only at h
  split at h
  next hfind => exact absurd h (by simp)
  next i hfind =>
    split at h
    next hcount =>
      rw [Option.some.injEq] at h
      subst h
      obtain ⟨hpi, hsi, hfirst⟩ := find?_range'_spec _ _ _ _ hfind
      refine ⟨rfl, rfl, hsi, of_decide_eq_true hpi, ?_, hcount⟩
      intro j h1 h2
      exact of_decide_eq_false (hfirst j h1 h2)
    next hcount => exact absurd h (by simp)

/-- What a bearish MSB emission guarantees (first breach, two opposite-regime swings). -/
theorem detect_bearish_msb_spec (c : Candles) (conf : Nat) (uc : Bool)
    (swing : SwingPoint) (all_swings : List SwingPoint) (b : StructureBreak)
    (h : _detect_bearish_msb c conf uc swing all_swings = some b) :
    b.swing_broken = swing ∧ b.break_type = BreakType.MSB_BEARISH ∧
    swing.index + conf ≤ b.break_index ∧
    checkPriceDown c uc b.break_index < swing.price ∧
    (∀ j, swing.index + conf ≤ j → j < b.break_index →
      ¬ checkPriceDown c uc j < swing.price) ∧
    2 ≤ (all_swings.filter (fun s => s.index < b.break_index ∧
          (swing.index : Int) - 20 < (s.index : Int))).countP
        (fun s => s.structure_ == some StructureType.HIGHER_HIGH ||
                  s.structure_ == some StructureType.HIGHER_LOW) := by
  rw [_detect_bearish_msb] at h
  try dsimp only at h
  split at h
  next hfind => exact absurd h (by simp)
  next i hfind =>
    split at h
    next hcount =>
      rw [Option.some.injEq] at h
      subst h
      obtain ⟨hpi, hsi, hfirst⟩ := find?_range'_spec _ _ _ _ hfind
      refine ⟨rfl, rfl, hsi, of_decide_eq_true hpi, ?_, hcount⟩
      intro j h1 h2
      exact of_decide_eq_false (hfirst j h1 h2)
    next hcount => exact absurd h (by simp)

/-- `detect_bos` reports at most one break per swing. -/
theorem detect_bos_swing_unique (suc : Bool) (conf : Nat) (uc : Bool) (c : Candles) :
    (detect_bos suc conf uc c).Pairwise
      (fun b1 b2 => b1.swing_broken.index ≠ b2.swing_broken.index) := by
  rw [detect_bos]
  try dsimp only
  split
  · exact List.Pairwise.nil
  · have hsort := detect_swings_sorted suc c
    refine ((List.mergeSort_perm _ _).pairwise_iff (fun hxy => Ne.symm hxy)).mpr ?_
    rw [List.pairwise_append]
    refine ⟨?_, ?_, ?_⟩
    · rw [List.pairwise_filterMap]
      refine (hsort.filter _).imp ?_
      intro a a' hlt b hb b' hb'
      rw [Option.mem_def] at hb hb'
      rw [(detect_break_above_spec _ _ _ _ _ _ hb).1,
        (detect_break_above_spec _ _ _ _ _ _ hb').1]
      exact Nat.ne_of_lt hlt
    · rw [List.pairwise_filterMap]
      refine (hsort.filter _).imp ?_
      intro a a' hlt b hb b' hb'
      rw [Option.mem_def] at hb hb'
      rw [(detect_break_below_spec _ _ _ _ _ _ hb).1,
        (detect_break_below_spec _ _ _ _ _ _ hb').1]
      exact Nat.ne_of_lt hlt
    · intro b1 hb1 b2 hb2
      obtain ⟨sa, hsa, hfa⟩ := List.mem_filterMap.1 hb1
      obtain ⟨sb, hsb, hfb⟩ := List.mem_filterMap.1 hb2
      rw [(detect_break_above_spec _ _ _ _ _ _ hfa).1,
        (detect_break_below_spec _ _ _ _ _ _ hfb).1]
      intro heq
      have hsa2 := List.mem_filter.1 hsa
      have hsb2 := List.mem_filter.1 hsb
      have heqs := pairwise_index_inj _ hsort sa hsa2.1 sb hsb2.1 heq
      have hhigh : sa.swing_type = SwingType.SWING_HIGH := by
        have := hsa2.2
        rw [SwingPoint.is_high, beq_iff_eq] at this
        exact this
      have hlow : sb.swing_type = SwingType.SWING_LOW := by
        have := hsb2.2
        rw [SwingPoint.is_low, beq_iff_eq] at this
        exact this
      rw [heqs, hlow] at hhigh
      cases hhigh

/-- `detect_msb` reports at most one break per swing. -/
theorem detect_msb_swing_unique (suc : Bool) (conf : Nat) (uc : Bool) (c : Candles) :
    (detect_msb suc conf uc c).Pairwise
      (fun b1 b2 => b1.swing_broken.index ≠ b2.swing_broken.index) := by
  rw [detect_msb]
  try dsimp only
  split
  · exact List.Pairwise.nil
  · have hsort := detect_swings_sorted suc c
    refine ((List.mergeSort_perm _ _).pairwise_iff (fun hxy => Ne.symm hxy)).mpr ?_
    rw [List.pairwise_append]
    refine ⟨?_, ?_, ?_⟩
    · rw [List.pairwise_filterMap]
      refine (hsort.filter _).imp ?_
      intro a a' hlt b hb b' hb'
      rw [Option.mem_def] at hb hb'
      rw [(detect_bullish_msb_spec _ _ _ _ _ _ hb).1,
        (detect_bullish_msb_spec _ _ _ _ _ _ hb').1]
      exact Nat.ne_of_lt hlt
    · rw [List.pairwise_filterMap]
      refine (hsort.filter _).imp ?_
      intro a a' hlt b hb b' hb'
      rw [Option.mem_def] at hb hb'
      rw [(detect_bearish_msb_spec _ _ _ _ _ _ hb).1,
        (detect_bearish_msb_spec _ _ _ _ _ _ hb').1]
      exact Nat.ne_of_lt hlt
    · intro b1 hb1 b2 hb2
      obtain ⟨sa, hsa, hfa⟩ := List.mem_filterMap.1 hb1
      obtain ⟨sb, hsb, hfb⟩ := List.mem_filterMap.1 hb2
      rw [(detect_bullish_msb_spec _ _ _ _ _ _ hfa).1,
        (detect_bearish_msb_spec _ _ _ _ _ _ hfb).1]
      intro heq
      have hsa2 := List.mem_filter.1 hsa
      have hsb2 := List.mem_filter.1 hsb
      have heqs := pairwise_index_inj _ hsort sa hsa2.1 sb hsb2.1 heq
      have hhigh : sa.swing_type = SwingType.SWING_HIGH := by
        have := hsa2.2
        rw [SwingPoint.is_high, beq_iff_eq] at this
        exact this
      have hlow : sb.swing_type = SwingType.SWING_LOW := by
        have := hsb2.2
        rw [SwingPoint.is_low, beq_iff_eq] at this
        exact this
      rw [heqs, hlow] at hhigh
      cases hhigh

/-- C6: every structure break returned by the BOS/MSB detectors has
`break_index` after the broken swing (for `confirmation_bars ≥ 1`, the
default); a break is emitted only at the first bar whose break price
breaches the swing level; a BOS requires the most recent prior swing
to agree with the break direction (HH/HL bullish, LH/LL bearish); an
MSB requires at least 2 prior swings of the opposite regime in the
20-bar window before the broken swing; and each of `detect_bos` and
`detect_msb` emits at most one break per swing, so later breaches of
the same level are never re-reported. -/
theorem C6_structure_break_invariants (c : Candles) (confirmation_bars : Nat) (suc uc : Bool)
    (swing : SwingPoint) (all_swings : List SwingPoint) (b : StructureBreak)
    (hconf : 1 ≤ confirmation_bars) :
    (_detect_break_above c confirmation_bars uc swing all_swings = some b →
       b.swing_broken = swing ∧ swing.index < b.break_index ∧
       swing.price < checkPriceUp c uc b.break_index ∧
       (∀ j, swing.index + confirmation_bars ≤ j → j < b.break_index →
          ¬ swing.price < checkPriceUp c uc j) ∧
       ∃ ls, (all_swings.filter (fun s => s.index < b.break_index)).getLast? = some ls ∧
         (ls.structure_ = some StructureType.HIGHER_HIGH ∨
          ls.structure_ = some StructureType.HIGHER_LOW)) ∧
    (_detect_break_below c confirmation_bars uc swing all_swings = some b →
       b.swing_broken = swing ∧ swing.index < b.break_index ∧
       checkPriceDown c uc b.break_index < swing.price ∧
       (∀ j, swing.index + confirmation_bars ≤ j → j < b.break_index →
          ¬ checkPriceDown c uc j < swing.price) ∧
       ∃ ls, (all_swings.filter (fun s => s.index < b.break_index)).getLast? = some ls ∧
         (ls.structure_ = some StructureType.LOWER_HIGH ∨
          ls.structure_ = some StructureType.LOWER_LOW)) ∧
    (_detect_bullish_msb c confirmation_bars uc swing all_swings = some b →
       b.swing_broken = swing ∧ swing.index < b.break_index ∧
       swing.price < checkPriceUp c uc b.break_index ∧
       (∀ j, swing.index + confirmation_bars ≤ j → j < b.break_index →
          ¬ swing.price < checkPriceUp c uc j) ∧
       2 ≤ (all_swings.filter (fun s => s.index < b.break_index ∧
             (swing.index : Int) - 20 < (s.index : Int))).countP
           (fun s => s.structure_ == some StructureType.LOWER_HIGH ||
                     s.structure_ == some StructureType.LOWER_LOW)) ∧
    (_detect_bearish_msb c confirmation_bars uc swing all_swings = some b →
       b.swing_broken = swing ∧ swing.index < b.break_index ∧
       checkPriceDown c uc b.break_index < swing.price ∧
       (∀ j, swing.index + confirmation_bars ≤ j → j < b.break_index →
          ¬ checkPriceDown c uc j < swing.price) ∧
       2 ≤ (all_swings.filter (fun s => s.index < b.break_index ∧
             (swing.index : Int) - 20 < (s.index : Int))).countP
           (fun s => s.structure_ == some StructureType.HIGHER_HIGH ||
                     s.structure_ == some StructureType.HIGHER_LOW)) ∧
    (detect_bos suc confirmation_bars uc c).Pairwise
        (fun b1 b2 => b1.swing_broken.index ≠ b2.swing_broken.index) ∧
    (detect_msb suc confirmation_bars uc c).Pairwise
        (fun b1 b2 => b1.swing_broken.index ≠ b2.swing_broken.index) := by
  refine ⟨?_, ?_, ?_, ?_, detect_bos_swing_unique suc confirmation_bars uc c,
    detect_msb_swing_unique suc confirmation_bars uc c⟩
  · intro h
    obtain ⟨h1, h2, h3, h4, h5, h6⟩ := detect_break_above_spec _ _ _ _ _ _ h
    exact ⟨h1, by omega, h4, h5, h6⟩
  · intro h
    obtain ⟨h1, h2, h3, h4, h5, h6⟩ := detect_break_below_spec _ _ _ _ _ _ h
    exact ⟨h1, by omega, h4, h5, h6⟩
  · intro h
    obtain ⟨h1, h2, h3, h4, h5, h6⟩ := detect_bullish_msb_spec _ _ _ _ _ _ h
    exact ⟨h1, by omega, h4, h5, h6⟩
  · intro h
    obtain ⟨h1, h2, h3, h4, h5, h6⟩ := detect_bearish_msb_spec _ _ _ _ _ _ h
    exact ⟨h1, by omega, h4, h5, h6⟩

/-- Witness for C6 on `bosC`, whose swing high at index 1 is broken at bar 5. -/
theorem C6_witness :
    1 ≤ 1 ∧
    _detect_break_above bosC 1 true bosSwing (detect_swings true bosC) = some bosBreak ∧
    bosBreak.swing_broken = bosSwing ∧ bosSwing.index < bosBreak.break_index ∧
    detect_bos true 1 true bosC = [bosBreak] := by
  refine ⟨le_refl 1, by with_unfolding_all decide, ?_, ?_, by with_unfolding_all decide⟩
  · exact ((C6_structure_break_invariants bosC 1 true true bosSwing
      (detect_swings true bosC) bosBreak (le_refl 1)).1 (by with_unfolding_all decide)).1
  · exact ((C6_structure_break_invariants bosC 1 true true bosSwing
      (detect_swings true bosC) bosBreak (le_refl 1)).1 (by with_unfolding_all decide)).2.1


/-! ## Strategy loader: claim C9 -/

/-- C9 (amended): an entry whose type string is outside the registry
is skipped (parsed to nothing) with only a warning, and the load still
succeeds; a strategy left with no entry conditions is NOT disabled —
its `enabled` flag keeps the document's value (default true) — but its
`check_entry` always returns false. -/
theorem C9_unknown_conditions (construct : CondConstructor) (data : SystemDoc)
    (slc : StopLossConfig) (tpc : TakeProfitConfig)
    (hsl : StopLossConfig.from_dict
      ((data.exit_.getD ⟨none, none⟩).stop_loss.getD defaultSLDoc) = some slc)
    (htp : TakeProfitConfig.from_dict
      ((data.exit_.getD ⟨none, none⟩).take_profit.getD defaultTPDoc) = some tpc)
    (hunk : ∀ cd ∈ (data.entry.getD ⟨none⟩).conditions.getD [],
      ∀ ty ∈ cd.type_, ty ∉ CONDITION_TYPES_keys) :
    (∀ cd ∈ (data.entry.getD ⟨none⟩).conditions.getD [],
      _parse_condition construct cd = none) ∧
    ∃ sys, SystemParser.parse construct data = some sys ∧
      sys.entry_conditions = [] ∧
      sys.enabled = data.enabled.getD true ∧
      sys.check_entry = false := by
  have hskip : ∀ cd ∈ (data.entry.getD ⟨none⟩).conditions.getD [],
      _parse_condition construct cd = none := by
    intro cd hcd
    rw [_parse_condition]
    rcases hty : cd.type_ with _ | ty
    · simp only [hty]
    · simp only [hty]
      have hnot : ty ∉ CONDITION_TYPES_keys :=
        hunk cd hcd ty (by rw [Option.mem_def, hty])
      by_cases he : ty = ""
      · rw [if_pos he]
      · rw [if_neg he, if_neg hnot]
  refine ⟨hskip, ?_⟩
  have hconds : _parse_conditions construct
      ((data.entry.getD ⟨none⟩).conditions.getD []) = [] := by
    rw [_parse_conditions]
    exact List.filterMap_eq_nil.mpr hskip
  rw [SystemParser.parse]
  try dsimp only
  rw [hconds]
  rw [hsl, htp]
  refine ⟨_, rfl, rfl, rfl, rfl⟩

/-- Counterexample to C9 as stated: a document whose only entry
condition has an unknown type parses to a strategy with no entry
conditions whose `enabled` flag is true, not false. -/
theorem C9_counterexample :
    (SystemParser.parse c9Construct c9Doc).map TradingSystem.entry_conditions = some [] ∧
    (SystemParser.parse c9Construct c9Doc).map TradingSystem.enabled = some true := by
  refine ⟨?_, ?_⟩ <;> with_unfolding_all decide

/-- Witness for C9 at the concrete document `c9Doc`. -/
theorem C9_witness :
    StopLossConfig.from_dict
      ((c9Doc.exit_.getD ⟨none, none⟩).stop_loss.getD defaultSLDoc) =
      some ⟨StopLossType.ATR, 3/2, false, none⟩ ∧
    TakeProfitConfig.from_dict
      ((c9Doc.exit_.getD ⟨none, none⟩).take_profit.getD defaultTPDoc) =
      some ⟨TakeProfitType.RISK_REWARD, 3, none⟩ ∧
    (∃ sys, SystemParser.parse c9Construct c9Doc = some sys ∧
      sys.entry_conditions = [] ∧
      sys.enabled = c9Doc.enabled.getD true ∧
      sys.check_entry = false) := by
  refine ⟨by with_unfolding_all decide, by with_unfolding_all decide, ?_⟩
  refine (C9_unknown_conditions c9Construct c9Doc
    ⟨StopLossType.ATR, 3/2, false, none⟩ ⟨TakeProfitType.RISK_REWARD, 3, none⟩
    (by with_unfolding_all decide) (by with_unfolding_all decide) ?_).2
  intro cd hcd ty hty
  have hcd2 : cd ∈ [CondData.mk (some "unknown_type") []] := hcd
  rw [List.mem_singleton] at hcd2
  subst hcd2
  rw [Option.mem_def] at hty
  have h3 : ty = "unknown_type" := by
    have h2 : some "unknown_type" = some ty := hty
    exact (Option.some.inj h2).symm
  subst h3
  decide


/-! ## Backtest driver determinism: claim C1 -/

/-- With a timestamp column, one bar step never reads the wall clock. -/
theorem stepBar_hasTs (E : EngineParams) (gen : SigGen) (sn sym : String)
    (c : Candles) (now now' : Int) (h : c.hasTs = true) :
    stepBar E gen sn sym c now = stepBar E gen sn sym c now' := by
  funext st i
  rw [stepBar, stepBar]
  simp only [h, reduceIte]

/-- With a timestamp column, the bar loop never reads the wall clock. -/
theorem runLoop_hasTs (E : EngineParams) (gen : SigGen) (sn sym : String)
    (c : Candles) (now now' : Int) (h : c.hasTs = true) :
    runLoop E gen sn sym c now = runLoop E gen sn sym c now' := by
  rw [runLoop, runLoop, stepBar_hasTs E gen sn sym c now now' h]

/-- With a timestamp column, the end-of-data close never reads the wall clock. -/
theorem finalizeRun_hasTs (E : EngineParams) (system : TradingSystem) (c : Candles)
    (sym : String) (now now' : Int) (s : RunState) (h : c.hasTs = true) :
    finalizeRun E system c sym now s = finalizeRun E system c sym now' s := by
  rw [finalizeRun, finalizeRun]
  simp only [h, reduceIte]

/-- C1 (amended): when the candle table has a timestamp column, the
result of `BacktestEngine.run` — trade ledger, final balance and all —
does not depend on the wall clock, so two invocations with identical
inputs are identical. -/
theorem C1_run_deterministic (E : EngineParams) (gen : SigGen) (system : TradingSystem)
    (c : Candles) (symbol : String) (now now' : Int) (h : c.hasTs = true) :
    BacktestEngine.run E gen system c symbol now =
      BacktestEngine.run E gen system c symbol now' := by
  rw [BacktestEngine.run, BacktestEngine.run,
    runLoop_hasTs E gen system.name symbol c now now' h,
    finalizeRun_hasTs E system c symbol now now' _ h]

/-- Counterexample to C1 as stated: on a 51-bar table WITHOUT a
timestamp column, two invocations of `run` with identical inputs but
different wall-clock readings produce different trade ledgers (the
trade's `entry_time` and `exit_time` come from `datetime.now()`). -/
theorem C1_counterexample :
    flatC.hasTs = false ∧
    (BacktestEngine.run E0 alwaysLong sys0 flatC "X" 0).trades ≠
      (BacktestEngine.run E0 alwaysLong sys0 flatC "X" 1).trades := by
  refine ⟨rfl, ?_⟩
  with_unfolding_all decide

/-- Witness for C1 on the timestamped table `flatCT`. -/
theorem C1_witness :
    flatCT.hasTs = true ∧
    BacktestEngine.run E0 alwaysLong sys0 flatCT "X" 0 =
      BacktestEngine.run E0 alwaysLong sys0 flatCT "X" 1 :=
  ⟨rfl, C1_run_deterministic E0 alwaysLong sys0 flatCT "X" 0 1 rfl⟩


/-! ## End-of-data close: claim C10 -/

/-- A bar step keeps the open trade's `pnl_percent` at zero. -/
theorem stepBar_open_pnl_percent (E : EngineParams) (gen : SigGen) (sn sym : String)
    (c : Candles) (now : Int) (st : RunState) (i : Nat)
    (H : ∀ t, st.current_trade = some t → t.pnl_percent = 0) :
    ∀ t, (stepBar E gen sn sym c now st i).current_trade = some t → t.pnl_percent = 0 := by
  intro t ht
  rw [stepBar] at ht
  try dsimp only at ht
  rcases hcur : st.current_trade with _ | t0
  · simp only [hcur] at ht
    rcases hgen : gen (c.bars.take (i + 1)) sym st.balance with _ | ⟨sig, rest⟩
    · rw [hgen] at ht
      try dsimp only at ht
      rw [hcur] at ht
      cases ht
    · rw [hgen] at ht
      try dsimp only at ht
      rw [Option.some.injEq] at ht
      subst ht
      rfl
  · simp only [hcur] at ht
    rcases hex : _check_exit t0 (c.bars.getD i dCandle).high (c.bars.getD i dCandle).low
        (c.bars.getD i dCandle).close with ⟨op, orr⟩
    rcases op with _ | ep <;> rcases orr with _ | er <;> simp only [hex] at ht
    · rw [hcur] at ht
      try dsimp only at ht
      first
        | exact H t ht
        | (rw [Option.some.injEq] at ht; subst ht; exact H t0 hcur)
    · rw [hcur] at ht
      try dsimp only at ht
      first
        | exact H t ht
        | (rw [Option.some.injEq] at ht; subst ht; exact H t0 hcur)
    · rw [hcur] at ht
      try dsimp only at ht
      first
        | exact H t ht
        | (rw [Option.some.injEq] at ht; subst ht; exact H t0 hcur)
    · -- trade closed on this bar: current becomes none, maybe a new entry opens
      rcases hgen : gen (c.bars.take (i + 1)) sym (st.balance + _) with _ | ⟨sig, rest⟩
      · rw [hgen] at ht
        cases ht
      · rw [hgen] at ht
        try dsimp only at ht
        rw [Option.some.injEq] at ht
        subst ht
        rfl

/-- A trade still open after the bar loop has `pnl_percent` zero. -/
theorem runLoop_open_pnl_percent (E : EngineParams) (gen : SigGen) (sn sym : String)
    (c : Candles) (now : Int) :
    ∀ t, (runLoop E gen sn sym c now).current_trade = some t → t.pnl_percent = 0 := by
  rw [runLoop]
  have aux : ∀ (l : List Nat) (st : RunState),
      (∀ t, st.current_trade = some t → t.pnl_percent = 0) →
      ∀ t, (l.foldl (stepBar E gen sn sym c now) st).current_trade = some t →
        t.pnl_percent = 0 := by
    intro l
    induction l with
    | nil => exact fun st H => H
    | cons i l ih =>
        intro st H
        exact ih _ (stepBar_open_pnl_percent E gen sn sym c now st i H)
  refine aux _ _ ?_
  intro t ht
  cases ht

/-- C10: when the bar loop ends with an open trade, the end-of-data
close appends it with reason EOD and adds its raw pnl (the price
difference times size, with no commission term) to the balance, while
`pnl_percent` stays 0 and `peak_balance` and `max_drawdown` are left
exactly as the loop ended. -/
theorem C10_eod_close_frame (E : EngineParams) (gen : SigGen) (system : TradingSystem)
    (c : Candles) (symbol : String) (now : Int) (t : BacktestTrade)
    (hopen : (runLoop E gen system.name symbol c now).current_trade = some t) :
    (BacktestEngine.run E gen system c symbol now).final_balance =
      (runLoop E gen system.name symbol c now).balance +
        (if t.signal_type = SignalType.LONG then
          ((c.bars.getD (c.bars.length - 1) dCandle).close - t.entry_price) * t.position_size
        else
          (t.entry_price - (c.bars.getD (c.bars.length - 1) dCandle).close) * t.position_size) ∧
    (BacktestEngine.run E gen system c symbol now).peak_balance =
      (runLoop E gen system.name symbol c now).peak_balance ∧
    (BacktestEngine.run E gen system c symbol now).max_drawdown =
      (runLoop E gen system.name symbol c now).max_drawdown ∧
    ∃ tr, (BacktestEngine.run E gen system c symbol now).trades =
        (runLoop E gen system.name symbol c now).trades ++ [tr] ∧
      tr.exit_reason = some TradeStatus.CLOSED_EOD ∧
      tr.exit_bar = some (c.bars.length - 1) ∧
      tr.pnl = (if t.signal_type = SignalType.LONG then
          ((c.bars.getD (c.bars.length - 1) dCandle).close - t.entry_price) * t.position_size
        else
          (t.entry_price - (c.bars.getD (c.bars.length - 1) dCandle).close) * t.position_size) ∧
      tr.pnl_percent = 0 := by
  have hpp := runLoop_open_pnl_percent E gen system.name symbol c now t hopen
  rw [BacktestEngine.run, finalizeRun]
  try dsimp only
  simp only [hopen]
  exact ⟨trivial, trivial, trivial, _, rfl, rfl, rfl, rfl, hpp⟩

/-- Witness for C10 on `flatC`, whose only trade stays open to the end. -/
theorem C10_witness :
    (runLoop E0 alwaysLong sys0.name "X" flatC 0).current_trade = some c10Trade ∧
    (BacktestEngine.run E0 alwaysLong sys0 flatC "X" 0).peak_balance =
      (runLoop E0 alwaysLong sys0.name "X" flatC 0).peak_balance ∧
    (BacktestEngine.run E0 alwaysLong sys0 flatC "X" 0).max_drawdown =
      (runLoop E0 alwaysLong sys0.name "X" flatC 0).max_drawdown ∧
    (∃ tr, (BacktestEngine.run E0 alwaysLong sys0 flatC "X" 0).trades =
        (runLoop E0 alwaysLong sys0.name "X" flatC 0).trades ++ [tr] ∧
      tr.exit_reason = some TradeStatus.CLOSED_EOD ∧
      tr.exit_bar = some (flatC.bars.length - 1) ∧
      tr.pnl = (if c10Trade.signal_type = SignalType.LONG then
          ((flatC.bars.getD (flatC.bars.length - 1) dCandle).close - c10Trade.entry_price) *
            c10Trade.position_size
        else
          (c10Trade.entry_price - (flatC.bars.getD (flatC.bars.length - 1) dCandle).close) *
            c10Trade.position_size) ∧
      tr.pnl_percent = 0) := by
  have h := C10_eod_close_frame E0 alwaysLong sys0 flatC "X" 0 c10Trade
    (by with_unfolding_all decide)
  exact ⟨by with_unfolding_all decide, h.2.1, h.2.2.1, h.2.2.2⟩

